import Mathlib

/-!
# Lifecycle of the service process (`packages/service/main.go`)

A shallow embedding of `func main()`: the bootstrap sequence, the transport
selection inside the Request Server goroutine, the recovery boundaries, and the
shutdown sequence that runs after a termination signal.

The collaborators (`utils.PidInit`, `auth.Init`, `autoclean.CheckAndClean`,
`net.Listen`, `os.Chmod`, `http.Server`, `profile.GetProfiles`, `Stop`) are not
part of `main.go`; their results are read from an environment record `Env`, so
every theorem quantifies over all of their possible behaviours.

Execution is recorded as one program-order trace per execution path (the main
path and the Request Server goroutine), a filesystem, the set of open
listeners and a clock in milliseconds.  The goroutine is run at the `go`
statement, up to its end: its bind comes before the signal, and the steps it
makes once `Serve` or `ListenAndServe` has returned are recorded in its own
trace.  The traces fix the order of the steps within one path only; nothing is
claimed about the order of a step of the goroutine and a step of `main`.
-/

namespace Service

/-! ## Values -/

/-- Error values: one returned by a collaborator, or
`&errortypes.WriteError{errors.Wrap(inner, context)}`. -/
inductive Error where
  | raw (msg : String)
  | writeError (context : String) (inner : Error)
  deriving DecidableEq, Repr

/-- What a call of `Stop` on a session does. -/
inductive StopResult where
  | returns
  | returnsError (e : Error)
  | panics (v : Error)
  deriving DecidableEq, Repr

/-- A session object (`profile.Profile`), opaque but for `Stop`: how the call
ends and how long it takes, in milliseconds. -/
structure Session where
  id : Nat
  result : StopResult
  took : Nat
  deriving DecidableEq, Repr

/-- A listening endpoint. -/
inductive Endpoint where
  | unix (path : String)
  | tcp (addr : String)
  deriving DecidableEq, Repr

/-- The fields of `http.Server` that `main` sets (durations in milliseconds). -/
structure Server where
  Addr : String
  ReadTimeout : Nat
  WriteTimeout : Nat
  MaxHeaderBytes : Nat
  deriving DecidableEq, Repr

/-- The two execution paths whose steps are recorded. -/
inductive Thread where
  | main
  | server
  deriving DecidableEq, Repr

/-- Observable steps. -/
inductive Event where
  | flagParse
  | setDevelopment
  | pidInit
  | loggerInit
  | logInfo (msg : String)
  | logError (msg : String) (fields : List String) (v : Error)
  | unlink (path : String) (failed : Bool)
  | authInit
  | checkAndClean
  | ginSetMode
  | ginNew
  | handlersRegister
  | startWatch
  | goServer
  | listenAndServe (addr : String) (bound : Bool)
  | netListen (network : String) (path : String) (bound : Bool)
  | chmod (path : String) (mode : Nat) (failed : Bool)
  | serve
  | goPingServersTicker
  | signalNotify
  | waitSignal
  | contextWithTimeout (ms : Nat)
  | serverShutdown
  | serverClose
  | sleep (ms : Nat)
  | getProfiles
  | stop (s : Session)
  | webCancel
  | recover (v : Option Error)
  | panic (v : Error)
  deriving DecidableEq, Repr

/-- Results of everything `main` calls but does not define. -/
structure Env where
  /-- Value of `runtime.GOOS`. -/
  goos : String
  /-- Value of the `-dev` flag. -/
  dev : Bool
  /-- Result of `utils.PidInit()`. -/
  pidInit : Option Error
  /-- Result of `auth.Init()`. -/
  authInit : Option Error
  /-- Result of `autoclean.CheckAndClean()`. -/
  checkAndClean : Option Error
  /-- The operating system refuses the unlink at startup (for a reason other
  than the path being absent). -/
  startupUnlinkDenied : Bool
  /-- A bind failure reported by the operating system for a reason other than
  the socket path existing (port occupied, permission denied). -/
  bindErr : Option Error
  /-- Result of `os.Chmod` on an existing path. -/
  chmodErr : Option Error
  /-- Mode bits of a freshly bound socket file. -/
  bindMode : Nat
  /-- Error that `ListenAndServe` returns once its listener is closed. -/
  serveErr : Error
  /-- Milliseconds until the termination signal arrives. -/
  signalAfter : Nat
  /-- Milliseconds after which `server.Shutdown` returns when no deadline stops
  it: the first of its polls at which it finds the server drained. -/
  shutdownTook : Nat
  /-- `server.Shutdown` panics with this value. -/
  shutdownPanics : Option Error
  /-- `server.Close` panics with this value. -/
  closePanics : Option Error
  /-- Closing a unix listener removes its socket file. -/
  closeRemovesSocket : Bool
  /-- The operating system refuses the unlink at shutdown. -/
  shutdownUnlinkDenied : Bool
  /-- Result of `profile.GetProfiles()`, in enumeration order. -/
  profiles : List Session

/-- What the machine looked like when `<-sig` returned. -/
structure Snapshot where
  /-- Clock value, in milliseconds. -/
  clock : Nat
  /-- The filesystem. -/
  fs : String → Option Nat
  /-- Open listeners. -/
  listeners : List Endpoint

/-- The state of the process and of the part of the machine it touches. -/
structure World where
  /-- The filesystem: mode bits of each existing path. -/
  fs : String → Option Nat
  /-- Open listeners. -/
  listeners : List Endpoint
  /-- Milliseconds elapsed. -/
  clock : Nat
  /-- The machine at the moment `<-sig` returned, once it has. -/
  signalAt : Option Snapshot
  /-- Value of `constants.Development`. -/
  development : Bool
  /-- A panic that left a goroutine unrecovered: the process crashes. -/
  goroutineCrash : Option Error
  /-- Steps of the main path, oldest first. -/
  mainTrace : List Event
  /-- Steps of the Request Server goroutine, oldest first. -/
  serverTrace : List Event
  /-- The open listeners that the server serves: those handed to `Serve` and
  the one that `ListenAndServe` opened. -/
  serving : List Endpoint

/-- The world at process start, over a given filesystem. -/
def World.init (fs : String → Option Nat) : World :=
  { fs := fs, listeners := [], clock := 0, signalAt := none, development := false,
    goroutineCrash := none, mainTrace := [], serverTrace := [], serving := [] }

/-- Record a step of one path. -/
def World.push (t : Thread) (e : Event) : World → World
  | ⟨fs, ls, c, s, d, g, mt, st, sv⟩ =>
    match t with
    | Thread.main => ⟨fs, ls, c, s, d, g, mt ++ [e], st, sv⟩
    | Thread.server => ⟨fs, ls, c, s, d, g, mt, st ++ [e], sv⟩

/-- Let the clock advance. -/
def World.tick (ms : Nat) : World → World
  | ⟨fs, ls, c, s, d, g, mt, st, sv⟩ => ⟨fs, ls, c + ms, s, d, g, mt, st, sv⟩

/-! ## Computations -/

/-- A computation: it ends normally with a value or panicking with a value,
and leaves a world either way. -/
def Exec (α : Type) : Type := World → Except Error α × World

/-- Sequencing: a panic skips what follows. -/
def Exec.bind {α β : Type} (m : Exec α) (f : α → Exec β) : Exec β := fun w =>
  match m w with
  | (Except.ok a, w1) => f a w1
  | (Except.error v, w1) => (Except.error v, w1)

/-- A computation that ends normally at once. -/
def Exec.pure {α : Type} (a : α) : Exec α := fun w => (Except.ok a, w)

instance : Monad Exec where
  pure := Exec.pure
  bind := Exec.bind

/-- Record a step. -/
def emit (t : Thread) (e : Event) : Exec Unit := fun w =>
  (Except.ok (), w.push t e)

/-- Let time pass. -/
def advance (ms : Nat) : Exec Unit := fun w =>
  (Except.ok (), w.tick ms)

/-- The builtin `panic(v)`. -/
def panic {α : Type} (t : Thread) (v : Error) : Exec α := fun w =>
  (Except.error v, w.push t (Event.panic v))

/-- The statement `defer func() { panc := recover(); handler(panc) }()` followed
by `body` up to the end of the function: `body` runs, then the deferred function
runs with the recovered value (`none` when `body` did not panic), and the
function ends the way the deferred function ends. -/
def deferRecover (t : Thread) (handler : Option Error → Exec Unit) (body : Exec Unit) :
    Exec Unit := fun w =>
  match body w with
  | (Except.ok _, w1) => handler none (w1.push t (Event.recover none))
  | (Except.error v, w1) => handler (some v) (w1.push t (Event.recover (some v)))

/-- The statement `defer d()` followed by `body` up to the end of the function:
`d` runs when `body` ends, and a panic of `body` goes on after it. -/
def deferCall (d : Exec Unit) (body : Exec Unit) : Exec Unit := fun w =>
  match body w with
  | (Except.ok _, w1) => d w1
  | (Except.error v, w1) =>
    match d w1 with
    | (Except.ok _, w2) => (Except.error v, w2)
    | (Except.error v2, w2) => (Except.error v2, w2)

/-- A panic left a goroutine unrecovered. -/
def World.crash (v : Error) : World → World
  | ⟨fs, ls, c, s, d, _, mt, st, sv⟩ => ⟨fs, ls, c, s, d, some v, mt, st, sv⟩

/-- The statement `go body()`: the caller goes on whatever `body` does; a panic
that `body` does not recover crashes the process. -/
def go (body : Exec Unit) : Exec Unit := fun w =>
  match body w with
  | (Except.ok _, w1) => (Except.ok (), w1)
  | (Except.error v, w1) => (Except.ok (), w1.crash v)

/-! ## Collaborators -/

/-- Path of the domain socket. -/
def sockPath : String := "/var/run/vpnht.sock"

/-- The call `flag.Parse()` and the value of `*devPtr`. -/
def flagParse (env : Env) : Exec Bool := fun w =>
  (Except.ok env.dev, w.push Thread.main Event.flagParse)

/-- The assignment `constants.Development = true`. -/
def setDevelopment : Exec Unit := fun w =>
  match w with
  | ⟨fs, ls, c, s, _, g, mt, st, sv⟩ =>
    (Except.ok (), ⟨fs, ls, c, s, true, g, mt ++ [Event.setDevelopment], st, sv⟩)

/-- The call `utils.PidInit()`. -/
def utilsPidInit (env : Env) : Exec (Option Error) := fun w =>
  (Except.ok env.pidInit, w.push Thread.main Event.pidInit)

/-- The call `auth.Init()`. -/
def authInit (env : Env) : Exec (Option Error) := fun w =>
  (Except.ok env.authInit, w.push Thread.main Event.authInit)

/-- The call `autoclean.CheckAndClean()`. -/
def autocleanCheckAndClean (env : Env) : Exec (Option Error) := fun w =>
  (Except.ok env.checkAndClean, w.push Thread.main Event.checkAndClean)

/-- A `logrus` entry at level info. -/
def logInfo (t : Thread) (msg : String) : Exec Unit :=
  emit t (Event.logInfo msg)

/-- A `logrus` entry at level error with its fields. -/
def logError (t : Thread) (msg : String) (fields : List String) (v : Error) : Exec Unit :=
  emit t (Event.logError msg fields v)

/-- The call `syscall.Unlink(path)`: an absent path is an error, an existing
one is removed unless the operating system refuses. -/
def syscallUnlink (t : Thread) (denied : Bool) (path : String) : Exec (Option Error) := fun w =>
  match w with
  | ⟨fs, ls, c, s, d, g, mt, st, sv⟩ =>
    match fs path with
    | none =>
      (Except.ok (some (Error.raw "ENOENT")),
        World.push t (Event.unlink path true) ⟨fs, ls, c, s, d, g, mt, st, sv⟩)
    | some _ =>
      if denied then
        (Except.ok (some (Error.raw "EPERM")),
          World.push t (Event.unlink path true) ⟨fs, ls, c, s, d, g, mt, st, sv⟩)
      else
        (Except.ok none,
          World.push t (Event.unlink path false)
            ⟨Function.update fs path none, ls, c, s, d, g, mt, st, sv⟩)

/-- The call `net.Listen("unix", path)`: fails when the path exists or the
operating system refuses, and creates the socket file otherwise. -/
def netListen (env : Env) (t : Thread) (network path : String) :
    Exec (Option Endpoint × Option Error) := fun w =>
  match w with
  | ⟨fs, ls, c, s, d, g, mt, st, sv⟩ =>
    match fs path with
    | some _ =>
      (Except.ok (none, some (Error.raw "EADDRINUSE")),
        World.push t (Event.netListen network path false) ⟨fs, ls, c, s, d, g, mt, st, sv⟩)
    | none =>
      match env.bindErr with
      | some e =>
        (Except.ok (none, some e),
          World.push t (Event.netListen network path false) ⟨fs, ls, c, s, d, g, mt, st, sv⟩)
      | none =>
        (Except.ok (some (Endpoint.unix path), none),
          World.push t (Event.netListen network path true)
            ⟨Function.update fs path (some env.bindMode), ls ++ [Endpoint.unix path],
              c, s, d, g, mt, st, sv⟩)

/-- The call `os.Chmod(path, mode)`. -/
def osChmod (env : Env) (t : Thread) (path : String) (mode : Nat) : Exec (Option Error) := fun w =>
  match w with
  | ⟨fs, ls, c, s, d, g, mt, st, sv⟩ =>
    match fs path with
    | none =>
      (Except.ok (some (Error.raw "ENOENT")),
        World.push t (Event.chmod path mode true) ⟨fs, ls, c, s, d, g, mt, st, sv⟩)
    | some _ =>
      match env.chmodErr with
      | some e =>
        (Except.ok (some e),
          World.push t (Event.chmod path mode true) ⟨fs, ls, c, s, d, g, mt, st, sv⟩)
      | none =>
        (Except.ok none,
          World.push t (Event.chmod path mode false)
            ⟨Function.update fs path (some mode), ls, c, s, d, g, mt, st, sv⟩)

/-- The call `server.Serve(listener)`: the server takes the listener over; the
result of the call is for the caller to drop. -/
def Server.Serve (env : Env) (_server : Server) (listener : Option Endpoint) :
    Exec (Option Error) := fun w =>
  match w with
  | ⟨fs, ls, c, s, d, g, mt, st, sv⟩ =>
    (Except.ok (some env.serveErr),
      ⟨fs, ls, c, s, d, g, mt, st ++ [Event.serve], sv ++ listener.toList⟩)

/-- The call `server.ListenAndServe()`: binds TCP at `server.Addr` and serves;
it returns the bind error, or the serve error once the listener is closed. -/
def Server.ListenAndServe (env : Env) (server : Server) : Exec (Option Error) := fun w =>
  match w with
  | ⟨fs, ls, c, s, d, g, mt, st, sv⟩ =>
    match env.bindErr with
    | some e =>
      (Except.ok (some e),
        ⟨fs, ls, c, s, d, g, mt, st ++ [Event.listenAndServe server.Addr false], sv⟩)
    | none =>
      (Except.ok (some env.serveErr),
        ⟨fs, ls ++ [Endpoint.tcp server.Addr], c, s, d, g, mt,
          st ++ [Event.listenAndServe server.Addr true], sv ++ [Endpoint.tcp server.Addr]⟩)

/-- Remove the socket file of a unix listener. -/
def removeSocket (fs : String → Option Nat) : Endpoint → String → Option Nat
  | Endpoint.unix path => Function.update fs path none
  | Endpoint.tcp _ => fs

/-- Close the listeners that the server serves. A listener that was bound but
never handed to the server stays open. -/
def closeListeners (env : Env) : Exec Unit := fun w =>
  match w with
  | ⟨fs, ls, c, s, d, g, mt, st, sv⟩ =>
    (Except.ok (),
      ⟨if env.closeRemovesSocket then sv.foldl removeSocket fs else fs,
        ls.filter (fun l => !sv.contains l), c, s, d, g, mt, st, []⟩)

/-- The call `server.Shutdown(ctx)` with a context that expires after
`timeout` milliseconds: it closes the listeners it serves and returns at the
first of its polls that finds the server drained, or when the context expires,
whichever is first. -/
def Server.Shutdown (env : Env) (_server : Server) (timeout : Nat) : Exec Unit := do
  emit Thread.main Event.serverShutdown
  advance (min env.shutdownTook timeout)
  match env.shutdownPanics with
  | some v => panic Thread.main v
  | none => closeListeners env

/-- The call `server.Close()`. -/
def Server.Close (env : Env) (_server : Server) : Exec Unit := do
  emit Thread.main Event.serverClose
  match env.closePanics with
  | some v => panic Thread.main v
  | none => closeListeners env

/-- The channel receive `<-sig`: blocks until the signal arrives. -/
def waitSignal (env : Env) : Exec Unit := fun w =>
  match w with
  | ⟨fs, ls, c, _, d, g, mt, st, sv⟩ =>
    (Except.ok (),
      ⟨fs, ls, c + env.signalAfter, some ⟨c + env.signalAfter, fs, ls⟩, d, g,
        mt ++ [Event.waitSignal], st, sv⟩)

/-- The call `time.Sleep(ms * time.Millisecond)`. -/
def timeSleep (ms : Nat) : Exec Unit := do
  emit Thread.main (Event.sleep ms)
  advance ms

/-- The call `profile.GetProfiles()`. -/
def profileGetProfiles (env : Env) : Exec (List Session) := fun w =>
  (Except.ok env.profiles, w.push Thread.main Event.getProfiles)

/-- The call `prfl.Stop()`. -/
def Session.Stop (prfl : Session) : Exec (Option Error) := do
  emit Thread.main (Event.stop prfl)
  advance prfl.took
  match prfl.result with
  | StopResult.returns => pure none
  | StopResult.returnsError e => pure (some e)
  | StopResult.panics v => panic Thread.main v

/-! ## The program -/

/-- The loop `for _, prfl := range prfls { prfl.Stop() }` (lines 169-171). -/
def rangeStop : List Session → Exec Unit
  | [] => pure ()
  | prfl :: rest => do
    let _ ← prfl.Stop
    rangeStop rest

/-- The body of the Request Server goroutine (lines 100-138). -/
def serverGoroutine (env : Env) (server : Server) : Exec Unit :=
  deferRecover Thread.server (fun _ => pure ()) do
    if env.goos ≠ "linux" ∧ env.goos ≠ "darwin" then
      let err ← server.ListenAndServe env
      match err with
      | some err => do
        logError Thread.server "main: Server error" ["error"] err
        panic Thread.server err
      | none => pure ()
    else
      let (listener, err) ← netListen env Thread.server "unix" "/var/run/vpnht.sock"
      match err with
      | some err => do
        let err := Error.writeError "main: Failed to create unix socket" err
        logError Thread.server "main: Server error" ["error"] err
        panic Thread.server err
      | none => pure ()
      let err ← osChmod env Thread.server "/var/run/vpnht.sock" 0o777
      match err with
      | some err => do
        let err := Error.writeError "main: Failed to chmod unix socket" err
        logError Thread.server "main: Server error" ["error"] err
        panic Thread.server err
      | none => pure ()
      let _ ← server.Serve env listener
      pure ()

/-- The closure of lines 154-164. -/
def shutdownDrive (env : Env) (server : Server) (webCtx : Nat) : Exec Unit :=
  deferRecover Thread.main (fun _ => pure ()) do
    server.Shutdown env webCtx
    server.Close env
    if env.goos = "linux" ∨ env.goos = "darwin" then
      let _ ← syscallUnlink Thread.main env.shutdownUnlinkDenied "/var/run/vpnht.sock"
      pure ()

/-- Lines 148-173: what `main` does once the signal has arrived. -/
def shutdownSequence (env : Env) (server : Server) : Exec Unit := do
  emit Thread.main (Event.contextWithTimeout (1 * 1000))
  let webCtx := 1 * 1000
  deferCall (emit Thread.main Event.webCancel) do
    shutdownDrive env server webCtx
    timeSleep 250
    let prfls ← profileGetProfiles env
    rangeStop prfls
    timeSleep 750

/-- The function `main`. -/
def main (env : Env) : Exec Unit := do
  let devPtr ← flagParse env
  if devPtr then
    setDevelopment
  let err ← utilsPidInit env
  match err with
  | some err => panic Thread.main err
  | none => pure ()
  emit Thread.main Event.loggerInit
  logInfo Thread.main "main: Service starting"
  if env.goos = "linux" ∨ env.goos = "darwin" then
    let _ ← syscallUnlink Thread.main env.startupUnlinkDenied "/var/run/vpnht.sock"
    pure ()
  deferRecover Thread.main
    (fun panc =>
      match panc with
      | some panc => do
        logError Thread.main "main: Panic" ["stack", "panic"] panc
        panic Thread.main panc
      | none => pure ()) do
    let err ← authInit env
    match err with
    | some err => do
      logError Thread.main "main: Failed to init auth" ["error"] err
      panic Thread.main err
    | none => pure ()
    let err ← autocleanCheckAndClean env
    match err with
    | some err => do
      logError Thread.main "main: Failed to run check and clean" ["error"] err
      panic Thread.main err
    | none => pure ()
    emit Thread.main Event.ginSetMode
    emit Thread.main Event.ginNew
    emit Thread.main Event.handlersRegister
    emit Thread.main Event.startWatch
    let server : Server :=
      { Addr := "127.0.0.1:9770", ReadTimeout := 30 * 1000, WriteTimeout := 30 * 1000,
        MaxHeaderBytes := 4096 }
    let server : Server :=
      if env.goos ≠ "linux" then { server with Addr := "127.0.0.1:9770" } else server
    emit Thread.main Event.goServer
    go (serverGoroutine env server)
    emit Thread.main Event.goPingServersTicker
    emit Thread.main Event.signalNotify
    waitSignal env
    shutdownSequence env server

/-- How the process ends. -/
inductive Outcome where
  | exited
  | crashed (v : Error)
  deriving DecidableEq, Repr

/-- Run the process from start over a filesystem. -/
def run (env : Env) (fs : String → Option Nat) : Outcome × World :=
  match main env (World.init fs) with
  | (Except.ok _, w) =>
    match w.goroutineCrash with
    | some v => (Outcome.crashed v, w)
    | none => (Outcome.exited, w)
  | (Except.error v, w) => (Outcome.crashed v, w)

/-! ## Observations on a run -/

/-- The steps of a trace that follow the receipt of the signal. -/
def afterSignal : List Event → List Event
  | [] => []
  | Event.waitSignal :: rest => rest
  | _ :: rest => afterSignal rest

/-- The steps of the main path after the signal: the shutdown sequence. -/
def shutdownTrace (env : Env) (fs : String → Option Nat) : List Event :=
  afterSignal (run env fs).2.mainTrace

/-- The step is the call `server.Shutdown`. -/
def Event.isServerShutdown : Event → Bool
  | Event.serverShutdown => true
  | _ => false

/-- The step is the call `server.Close`. -/
def Event.isServerClose : Event → Bool
  | Event.serverClose => true
  | _ => false

/-- The step belongs to the shutdown of the Request Server. -/
def Event.isServerDown (e : Event) : Bool :=
  e.isServerShutdown || e.isServerClose

/-- The step is a `syscall.Unlink`. -/
def Event.isUnlink : Event → Bool
  | Event.unlink _ _ => true
  | _ => false

/-- The step is a `Stop` on a session. -/
def Event.isStop : Event → Bool
  | Event.stop _ => true
  | _ => false

/-- The step writes an error entry to the log. -/
def Event.isLogError : Event → Bool
  | Event.logError _ _ _ => true
  | _ => false

/-- The step comes, in `main`, after the three bootstrap checks: the router
setup, the launch of the two background paths, the wait, or a teardown step. -/
def Event.isAfterBootstrap : Event → Bool
  | Event.ginSetMode => true
  | Event.ginNew => true
  | Event.handlersRegister => true
  | Event.startWatch => true
  | Event.goServer => true
  | Event.goPingServersTicker => true
  | Event.signalNotify => true
  | Event.waitSignal => true
  | Event.contextWithTimeout _ => true
  | Event.serverShutdown => true
  | Event.serverClose => true
  | Event.sleep _ => true
  | Event.getProfiles => true
  | Event.stop _ => true
  | Event.webCancel => true
  | _ => false

/-- The sessions on which a trace calls `Stop`, in order, with multiplicity. -/
def stopsOf : List Event → List Session
  | [] => []
  | Event.stop s :: rest => s :: stopsOf rest
  | _ :: rest => stopsOf rest

/-- The endpoints that a trace binds, in order. -/
def endpointsCreated : List Event → List Endpoint
  | [] => []
  | Event.netListen _ path true :: rest => Endpoint.unix path :: endpointsCreated rest
  | Event.listenAndServe addr true :: rest => Endpoint.tcp addr :: endpointsCreated rest
  | _ :: rest => endpointsCreated rest

/-- A trace holds a bind of the chosen transport that failed. -/
def bindFailed (tr : List Event) : Prop :=
  Event.netListen "unix" "/var/run/vpnht.sock" false ∈ tr ∨
    Event.listenAndServe "127.0.0.1:9770" false ∈ tr

instance (tr : List Event) : Decidable (bindFailed tr) :=
  inferInstanceAs (Decidable (_ ∨ _))

/-- Every step of kind `p` comes before every step of kind `q`. -/
def Precedes (p q : Event → Bool) (tr : List Event) : Prop :=
  ∀ (i j : Nat) (e1 e2 : Event), tr[i]? = some e1 → tr[j]? = some e2 → p e1 = true → q e2 = true → i < j

/-- The `Stop` of the session panics. -/
def Session.stopPanics (s : Session) : Bool :=
  match s.result with
  | StopResult.panics _ => true
  | _ => false

/-- The clock value at which `<-sig` returned, once it has. -/
def World.signalClock (w : World) : Option Nat :=
  w.signalAt.map Snapshot.clock

/-- Nothing that follows the bootstrap has happened: the goroutine has made no
step, no listener is open, the signal was never awaited, and `main` has made
no step that comes after the three checks. -/
def World.abortedAtBootstrap (w : World) : Prop :=
  w.serverTrace = [] ∧ w.listeners = [] ∧ w.signalAt = none ∧
    ∀ x ∈ w.mainTrace, x.isAfterBootstrap = false

/-! ## Closed forms used in the proofs -/

/-- The sessions that the loop reaches: all up to and including the first one
whose `Stop` panics. -/
def stopsUpToPanic : List Session → List Session
  | [] => []
  | s :: rest =>
    match s.result with
    | StopResult.panics _ => [s]
    | _ => s :: stopsUpToPanic rest

/-- The value of the first panic among the `Stop` calls. -/
def firstPanic : List Session → Option Error
  | [] => none
  | s :: rest =>
    match s.result with
    | StopResult.panics v => some v
    | _ => firstPanic rest

/-- Time spent in the `Stop` calls that the loop makes. -/
def stopTime (ps : List Session) : Nat :=
  ((stopsUpToPanic ps).map Session.took).sum

/-- Steps of the loop. -/
def loopEvents (ps : List Session) : List Event :=
  (stopsUpToPanic ps).map Event.stop ++
    match firstPanic ps with
    | some v => [Event.panic v]
    | none => []

/-- How the loop ends. -/
def loopResult (ps : List Session) : Except Error Unit :=
  match firstPanic ps with
  | some v => Except.error v
  | none => Except.ok ()

/-- Steps of `main` between the loop and its deferred calls. -/
def loopTail (ps : List Session) : List Event :=
  match firstPanic ps with
  | some _ => []
  | none => [Event.sleep 750]

/-- Time of the last sleep, when it runs. -/
def loopTailTime (ps : List Session) : Nat :=
  match firstPanic ps with
  | some _ => 0
  | none => 750

/-- The filesystem once the served listeners are closed. -/
def closeFs (env : Env) (fs : String → Option Nat) (sv : List Endpoint) : String → Option Nat :=
  if env.closeRemovesSocket then sv.foldl removeSocket fs else fs

/-- The filesystem after `syscall.Unlink`. -/
def unlinkFs (denied : Bool) (fs : String → Option Nat) (path : String) : String → Option Nat :=
  match fs path with
  | none => fs
  | some _ => if denied then fs else Function.update fs path none

/-- Whether `syscall.Unlink` returns an error. -/
def unlinkFailed (denied : Bool) (fs : String → Option Nat) (path : String) : Bool :=
  match fs path with
  | none => true
  | some _ => denied

/-- The result of `syscall.Unlink`. -/
def unlinkResult (denied : Bool) (fs : String → Option Nat) (path : String) : Option Error :=
  match fs path with
  | none => some (Error.raw "ENOENT")
  | some _ => if denied then some (Error.raw "EPERM") else none

/-- Steps of the shutdown closure after `server.Shutdown`. -/
def driveTail (env : Env) (fs : String → Option Nat) (sv : List Endpoint) : List Event :=
  match env.shutdownPanics with
  | some v => [Event.panic v, Event.recover (some v)]
  | none =>
    Event.serverClose ::
      match env.closePanics with
      | some v => [Event.panic v, Event.recover (some v)]
      | none =>
        (if env.goos = "linux" ∨ env.goos = "darwin" then
          [Event.unlink "/var/run/vpnht.sock"
            (unlinkFailed env.shutdownUnlinkDenied (closeFs env fs sv) "/var/run/vpnht.sock")]
        else []) ++ [Event.recover none]

/-- The filesystem after the shutdown closure. -/
def driveFs (env : Env) (fs : String → Option Nat) (sv : List Endpoint) : String → Option Nat :=
  match env.shutdownPanics with
  | some _ => fs
  | none =>
    match env.closePanics with
    | some _ => closeFs env fs sv
    | none =>
      if env.goos = "linux" ∨ env.goos = "darwin" then
        unlinkFs env.shutdownUnlinkDenied (closeFs env fs sv) "/var/run/vpnht.sock"
      else closeFs env fs sv

/-- The open listeners after the shutdown closure. -/
def driveListeners (env : Env) (ls sv : List Endpoint) : List Endpoint :=
  match env.shutdownPanics with
  | some _ => ls
  | none => ls.filter (fun l => !sv.contains l)

/-- The served listeners after the shutdown closure. -/
def driveServing (env : Env) (sv : List Endpoint) : List Endpoint :=
  match env.shutdownPanics with
  | some _ => sv
  | none => []

/-- Steps of the shutdown sequence up to `webCancel`. -/
def shutdownEvents (env : Env) (fs : String → Option Nat) (sv : List Endpoint) : List Event :=
  Event.contextWithTimeout 1000 :: Event.serverShutdown :: driveTail env fs sv ++
    Event.sleep 250 :: Event.getProfiles :: loopEvents env.profiles ++ loopTail env.profiles ++
    [Event.webCancel]

/-- Steps of the Request Server goroutine. -/
def goroutineEvents (env : Env) (fs : String → Option Nat) (addr : String) : List Event :=
  if env.goos ≠ "linux" ∧ env.goos ≠ "darwin" then
    match env.bindErr with
    | some e =>
      [Event.listenAndServe addr false, Event.logError "main: Server error" ["error"] e,
        Event.panic e, Event.recover (some e)]
    | none =>
      [Event.listenAndServe addr true,
        Event.logError "main: Server error" ["error"] env.serveErr,
        Event.panic env.serveErr, Event.recover (some env.serveErr)]
  else
    match fs "/var/run/vpnht.sock" with
    | some _ =>
      [Event.netListen "unix" "/var/run/vpnht.sock" false,
        Event.logError "main: Server error" ["error"]
          (Error.writeError "main: Failed to create unix socket" (Error.raw "EADDRINUSE")),
        Event.panic (Error.writeError "main: Failed to create unix socket" (Error.raw "EADDRINUSE")),
        Event.recover
          (some (Error.writeError "main: Failed to create unix socket" (Error.raw "EADDRINUSE")))]
    | none =>
      match env.bindErr with
      | some e =>
        [Event.netListen "unix" "/var/run/vpnht.sock" false,
          Event.logError "main: Server error" ["error"]
            (Error.writeError "main: Failed to create unix socket" e),
          Event.panic (Error.writeError "main: Failed to create unix socket" e),
          Event.recover (some (Error.writeError "main: Failed to create unix socket" e))]
      | none =>
        match env.chmodErr with
        | some e =>
          [Event.netListen "unix" "/var/run/vpnht.sock" true,
            Event.chmod "/var/run/vpnht.sock" 0o777 true,
            Event.logError "main: Server error" ["error"]
              (Error.writeError "main: Failed to chmod unix socket" e),
            Event.panic (Error.writeError "main: Failed to chmod unix socket" e),
            Event.recover (some (Error.writeError "main: Failed to chmod unix socket" e))]
        | none =>
          [Event.netListen "unix" "/var/run/vpnht.sock" true,
            Event.chmod "/var/run/vpnht.sock" 0o777 false, Event.serve, Event.recover none]

/-- The filesystem after the goroutine has bound its transport. -/
def goroutineFs (env : Env) (fs : String → Option Nat) : String → Option Nat :=
  if env.goos ≠ "linux" ∧ env.goos ≠ "darwin" then fs
  else
    match fs "/var/run/vpnht.sock" with
    | some _ => fs
    | none =>
      match env.bindErr with
      | some _ => fs
      | none =>
        match env.chmodErr with
        | some _ => Function.update fs "/var/run/vpnht.sock" (some env.bindMode)
        | none =>
          Function.update (Function.update fs "/var/run/vpnht.sock" (some env.bindMode))
            "/var/run/vpnht.sock" (some 0o777)

/-- The listeners that the goroutine opens. -/
def goroutineListeners (env : Env) (fs : String → Option Nat) (addr : String) : List Endpoint :=
  if env.goos ≠ "linux" ∧ env.goos ≠ "darwin" then
    match env.bindErr with
    | some _ => []
    | none => [Endpoint.tcp addr]
  else
    match fs "/var/run/vpnht.sock" with
    | some _ => []
    | none =>
      match env.bindErr with
      | some _ => []
      | none => [Endpoint.unix "/var/run/vpnht.sock"]

/-- The listeners that the goroutine hands to the server. -/
def goroutineServing (env : Env) (fs : String → Option Nat) (addr : String) : List Endpoint :=
  if env.goos ≠ "linux" ∧ env.goos ≠ "darwin" then
    match env.bindErr with
    | some _ => []
    | none => [Endpoint.tcp addr]
  else
    match fs "/var/run/vpnht.sock" with
    | some _ => []
    | none =>
      match env.bindErr with
      | some _ => []
      | none =>
        match env.chmodErr with
        | some _ => []
        | none => [Endpoint.unix "/var/run/vpnht.sock"]

/-- Step of the `-dev` flag. -/
def devEvents (env : Env) : List Event :=
  if env.dev then [Event.setDevelopment] else []

/-- Step of the unlink at startup. -/
def startEvents (env : Env) (fs : String → Option Nat) : List Event :=
  if env.goos = "linux" ∨ env.goos = "darwin" then
    [Event.unlink "/var/run/vpnht.sock"
      (unlinkFailed env.startupUnlinkDenied fs "/var/run/vpnht.sock")]
  else []

/-- The filesystem after the unlink at startup. -/
def startFs (env : Env) (fs : String → Option Nat) : String → Option Nat :=
  if env.goos = "linux" ∨ env.goos = "darwin" then
    unlinkFs env.startupUnlinkDenied fs "/var/run/vpnht.sock"
  else fs

/-- Steps of `main` up to the installation of its recovery boundary. -/
def bootEvents (env : Env) (fs : String → Option Nat) : List Event :=
  Event.flagParse :: devEvents env ++
    Event.pidInit :: Event.loggerInit :: Event.logInfo "main: Service starting" ::
      startEvents env fs

/-- Steps of the recovery boundary of `main` when `main` ends. -/
def exitEvents (ps : List Session) : List Event :=
  match firstPanic ps with
  | some v =>
    [Event.recover (some v), Event.logError "main: Panic" ["stack", "panic"] v, Event.panic v]
  | none => [Event.recover none]

/-- Steps of `main` that follow the shutdown closure. -/
def afterDrive (ps : List Session) : List Event :=
  Event.sleep 250 :: Event.getProfiles :: loopEvents ps ++ loopTail ps ++
    Event.webCancel :: exitEvents ps

/-- How the process ends when the three bootstrap checks pass. -/
def exitOutcome (ps : List Session) : Outcome :=
  match firstPanic ps with
  | some v => Outcome.crashed v
  | none => Outcome.exited

/-- Steps of `main` from `auth.Init` to the receipt of the signal. -/
def startupEvents : List Event :=
  [Event.authInit, Event.checkAndClean, Event.ginSetMode, Event.ginNew,
    Event.handlersRegister, Event.startWatch, Event.goServer,
    Event.goPingServersTicker, Event.signalNotify, Event.waitSignal]

/-- The world that `main` leaves when the three bootstrap checks pass. -/
def startedWorld (env : Env) (fs : String → Option Nat) : World :=
  ⟨driveFs env (goroutineFs env (startFs env fs))
      (goroutineServing env (startFs env fs) "127.0.0.1:9770"),
    driveListeners env (goroutineListeners env (startFs env fs) "127.0.0.1:9770")
      (goroutineServing env (startFs env fs) "127.0.0.1:9770"),
    env.signalAfter + min env.shutdownTook 1000 + 250 + stopTime env.profiles +
      loopTailTime env.profiles,
    some ⟨env.signalAfter, goroutineFs env (startFs env fs),
      goroutineListeners env (startFs env fs) "127.0.0.1:9770"⟩,
    env.dev, none,
    bootEvents env fs ++ startupEvents ++
      shutdownEvents env (goroutineFs env (startFs env fs))
        (goroutineServing env (startFs env fs) "127.0.0.1:9770") ++
      exitEvents env.profiles,
    goroutineEvents env (startFs env fs) "127.0.0.1:9770",
    driveServing env (goroutineServing env (startFs env fs) "127.0.0.1:9770")⟩

/-! ## Concrete inputs -/

/-- A filesystem with no entry. -/
def fsEmpty : String → Option Nat := fun _ => none

/-- A filesystem with a stale socket file. -/
def fsStale : String → Option Nat :=
  Function.update fsEmpty "/var/run/vpnht.sock" (some 0o755)

/-- A session whose `Stop` returns. -/
def sessionA : Session := ⟨1, StopResult.returns, 0⟩

/-- A session whose `Stop` panics. -/
def sessionB : Session := ⟨2, StopResult.panics (Error.raw "stop failed"), 0⟩

/-- A session whose `Stop` returns an error. -/
def sessionC : Session := ⟨3, StopResult.returnsError (Error.raw "not running"), 0⟩

/-- An environment in which every call succeeds. -/
def envClean (goos : String) (profiles : List Session) : Env :=
  { goos := goos, dev := false, pidInit := none, authInit := none, checkAndClean := none,
    startupUnlinkDenied := false, bindErr := none, chmodErr := none, bindMode := 0o755,
    serveErr := Error.raw "http: Server closed", signalAfter := 5000, shutdownTook := 0,
    shutdownPanics := none, closePanics := none, closeRemovesSocket := true,
    shutdownUnlinkDenied := false, profiles := profiles }

/-- Linux, three sessions: the `Stop` of the second one panics. -/
def envStopPanics : Env :=
  envClean "linux" [sessionA, sessionB, sessionC]

/-- A platform without unix sockets on which the port is occupied. -/
def envPortOccupied : Env :=
  { envClean "windows" [sessionA] with bindErr := some (Error.raw "address already in use") }

/-- Darwin, where the chmod of the socket fails. -/
def envChmodFails : Env :=
  { envClean "darwin" [sessionA] with chmodErr := some (Error.raw "operation not permitted") }

/-- Linux, where `server.Shutdown` panics. -/
def envShutdownPanics : Env :=
  { envClean "linux" [sessionA, sessionC] with shutdownPanics := some (Error.raw "shutdown") }

/-- Linux, where another instance holds the pid file. -/
def envPidHeld : Env :=
  { envClean "linux" [sessionA] with pidInit := some (Error.raw "pid file held") }

/-- Linux, where `auth.Init` fails. -/
def envAuthFails : Env :=
  { envClean "linux" [sessionA] with authInit := some (Error.raw "no key") }

/-- Linux, where the operating system refuses the unlink at startup. -/
def envUnlinkDenied : Env :=
  { envClean "linux" [sessionA] with startupUnlinkDenied := true }

/-- Linux, where `server.Close` panics. -/
def envClosePanics : Env :=
  { envClean "linux" [sessionA, sessionC] with closePanics := some (Error.raw "close") }

/-- Linux, a busy server: `server.Shutdown` would need three seconds to return. -/
def envBusy : Env :=
  { envClean "linux" [sessionA, sessionC] with shutdownTook := 3000 }

/-- A session whose `Stop` returns after five seconds. -/
def sessionSlow : Session := ⟨4, StopResult.returns, 5000⟩

/-- Linux, an idle server and one session whose `Stop` is slow. -/
def envSlowStop : Env :=
  envClean "linux" [sessionSlow]

/-! ## Summaries of the computations -/

@[simp] theorem bind_run {α β : Type} (m : Exec α) (f : α → Exec β) (w : World) :
    (m >>= f) w =
      match m w with
      | (Except.ok a, w1) => f a w1
      | (Except.error v, w1) => (Except.error v, w1) := rfl

@[simp] theorem pure_run {α : Type} (a : α) (w : World) :
    (pure a : Exec α) w = (Except.ok a, w) := rfl

theorem rangeStop_run (ps : List Session) (fs ls c s d g mt st sv) :
    rangeStop ps ⟨fs, ls, c, s, d, g, mt, st, sv⟩ =
      (loopResult ps, ⟨fs, ls, c + stopTime ps, s, d, g, mt ++ loopEvents ps, st, sv⟩) := by
  induction ps generalizing c mt with
  | nil => simp [rangeStop, loopResult, firstPanic, stopTime, stopsUpToPanic, loopEvents]
  | cons p rest ih =>
    cases hp : p.result <;>
      simp [rangeStop, Session.Stop, emit, advance, panic, World.push, World.tick, hp, ih,
        loopResult, firstPanic, stopTime, stopsUpToPanic, loopEvents, Nat.add_assoc]

theorem syscallUnlink_run (t : Thread) (denied : Bool) (path : String) (fs ls c s d g mt st sv) :
    syscallUnlink t denied path ⟨fs, ls, c, s, d, g, mt, st, sv⟩ =
      (Except.ok (unlinkResult denied fs path),
        World.push t (Event.unlink path (unlinkFailed denied fs path))
          ⟨unlinkFs denied fs path, ls, c, s, d, g, mt, st, sv⟩) := by
  unfold syscallUnlink unlinkResult unlinkFailed unlinkFs
  cases h : fs path <;> cases denied <;> simp [h]

theorem closeFs_nil (env : Env) (fs : String → Option Nat) : closeFs env fs [] = fs := by
  unfold closeFs
  split <;> rfl

theorem shutdownDrive_run (env : Env) (server : Server) (t : Nat) (fs ls c s d g mt st sv) :
    shutdownDrive env server t ⟨fs, ls, c, s, d, g, mt, st, sv⟩ =
      (Except.ok (), ⟨driveFs env fs sv, driveListeners env ls sv, c + min env.shutdownTook t,
        s, d, g, mt ++ Event.serverShutdown :: driveTail env fs sv, st, driveServing env sv⟩) := by
  unfold shutdownDrive deferRecover Server.Shutdown Server.Close driveFs driveListeners driveTail
    driveServing
  cases h1 : env.shutdownPanics with
  | some v => simp [emit, advance, panic, World.push, World.tick, h1]
  | none =>
    cases h2 : env.closePanics with
    | some v =>
      simp [emit, advance, panic, World.push, World.tick, h1, h2, closeListeners, closeFs]
    | none =>
      by_cases hp : env.goos = "linux" ∨ env.goos = "darwin"
      · simp [emit, advance, panic, World.push, World.tick, h1, h2, closeListeners, hp,
          syscallUnlink_run, closeFs]
      · simp [emit, advance, panic, World.push, World.tick, h1, h2, closeListeners, hp, closeFs]

theorem shutdownSequence_run (env : Env) (server : Server) (fs ls c s d g mt st sv) :
    shutdownSequence env server ⟨fs, ls, c, s, d, g, mt, st, sv⟩ =
      (loopResult env.profiles,
        ⟨driveFs env fs sv, driveListeners env ls sv,
          c + min env.shutdownTook 1000 + 250 + stopTime env.profiles +
            loopTailTime env.profiles,
          s, d, g, mt ++ shutdownEvents env fs sv, st, driveServing env sv⟩) := by
  unfold shutdownSequence deferCall
  cases h : firstPanic env.profiles <;>
    simp [emit, World.push, shutdownDrive_run, timeSleep, advance, World.tick, profileGetProfiles,
      rangeStop_run, loopResult, h, shutdownEvents, loopTail, loopTailTime]

theorem serverGoroutine_run (env : Env) (server : Server) (fs ls c s d g mt st sv) :
    serverGoroutine env server ⟨fs, ls, c, s, d, g, mt, st, sv⟩ =
      (Except.ok (), ⟨goroutineFs env fs, ls ++ goroutineListeners env fs server.Addr, c, s, d, g,
        mt, st ++ goroutineEvents env fs server.Addr,
        sv ++ goroutineServing env fs server.Addr⟩) := by
  unfold serverGoroutine deferRecover goroutineFs goroutineListeners goroutineEvents
    goroutineServing
  by_cases hp : env.goos ≠ "linux" ∧ env.goos ≠ "darwin"
  · cases hb : env.bindErr <;>
      simp [hp, hb, Server.ListenAndServe, logError, emit, panic, World.push]
  · cases hf : fs "/var/run/vpnht.sock" with
    | some m => simp [hp, hf, netListen, logError, emit, panic, World.push]
    | none =>
      cases hb : env.bindErr with
      | some e => simp [hp, hf, hb, netListen, logError, emit, panic, World.push]
      | none =>
        cases hc : env.chmodErr <;>
          simp [hp, hf, hb, hc, netListen, osChmod, logError, emit, panic, World.push,
            Server.Serve]

theorem main_pidInit (env : Env) (fs : String → Option Nat) (e : Error)
    (h : env.pidInit = some e) :
    main env (World.init fs) =
      (Except.error e, ⟨fs, [], 0, none, env.dev, none,
        Event.flagParse :: devEvents env ++ [Event.pidInit, Event.panic e], [], []⟩) := by
  unfold main World.init devEvents
  cases hd : env.dev <;>
    simp [flagParse, setDevelopment, utilsPidInit, panic, World.push, h, hd]

theorem main_authInit (env : Env) (fs : String → Option Nat) (e : Error)
    (h0 : env.pidInit = none) (h : env.authInit = some e) :
    main env (World.init fs) =
      (Except.error e, ⟨startFs env fs, [], 0, none, env.dev, none,
        bootEvents env fs ++
          [Event.authInit, Event.logError "main: Failed to init auth" ["error"] e, Event.panic e,
            Event.recover (some e), Event.logError "main: Panic" ["stack", "panic"] e,
            Event.panic e], [], []⟩) := by
  unfold main World.init bootEvents devEvents startEvents startFs deferRecover
  cases hd : env.dev <;> by_cases hp : env.goos = "linux" ∨ env.goos = "darwin" <;>
    simp [flagParse, setDevelopment, utilsPidInit, panic, World.push, h, h0, hd, hp, emit,
      logInfo, logError, syscallUnlink_run, authInit]

theorem main_checkAndClean (env : Env) (fs : String → Option Nat) (e : Error)
    (h0 : env.pidInit = none) (h1 : env.authInit = none) (h : env.checkAndClean = some e) :
    main env (World.init fs) =
      (Except.error e, ⟨startFs env fs, [], 0, none, env.dev, none,
        bootEvents env fs ++
          [Event.authInit, Event.checkAndClean,
            Event.logError "main: Failed to run check and clean" ["error"] e, Event.panic e,
            Event.recover (some e), Event.logError "main: Panic" ["stack", "panic"] e,
            Event.panic e], [], []⟩) := by
  unfold main World.init bootEvents devEvents startEvents startFs deferRecover
  cases hd : env.dev <;> by_cases hp : env.goos = "linux" ∨ env.goos = "darwin" <;>
    simp [flagParse, setDevelopment, utilsPidInit, panic, World.push, h, h0, h1, hd, hp, emit,
      logInfo, logError, syscallUnlink_run, authInit, autocleanCheckAndClean]

theorem main_started (env : Env) (fs : String → Option Nat)
    (h0 : env.pidInit = none) (h1 : env.authInit = none) (h2 : env.checkAndClean = none) :
    main env (World.init fs) = (loopResult env.profiles, startedWorld env fs) := by
  unfold main World.init startedWorld bootEvents devEvents startEvents startFs deferRecover
    exitEvents startupEvents
  cases hd : env.dev <;> by_cases hp : env.goos = "linux" ∨ env.goos = "darwin" <;>
    cases hl : firstPanic env.profiles <;>
    simp [flagParse, setDevelopment, utilsPidInit, panic, World.push, h0, h1, h2, hd, hp, hl,
      emit, logInfo, logError, syscallUnlink_run, authInit, autocleanCheckAndClean, go,
      serverGoroutine_run, waitSignal, shutdownSequence_run, loopResult]

/-! ## Runs -/

theorem run_pidInit (env : Env) (fs : String → Option Nat) (e : Error)
    (h : env.pidInit = some e) :
    run env fs =
      (Outcome.crashed e, ⟨fs, [], 0, none, env.dev, none,
        Event.flagParse :: devEvents env ++ [Event.pidInit, Event.panic e], [], []⟩) := by
  unfold run
  rw [main_pidInit env fs e h]

theorem run_authInit (env : Env) (fs : String → Option Nat) (e : Error)
    (h0 : env.pidInit = none) (h : env.authInit = some e) :
    run env fs =
      (Outcome.crashed e, ⟨startFs env fs, [], 0, none, env.dev, none,
        bootEvents env fs ++
          [Event.authInit, Event.logError "main: Failed to init auth" ["error"] e, Event.panic e,
            Event.recover (some e), Event.logError "main: Panic" ["stack", "panic"] e,
            Event.panic e], [], []⟩) := by
  unfold run
  rw [main_authInit env fs e h0 h]

theorem run_checkAndClean (env : Env) (fs : String → Option Nat) (e : Error)
    (h0 : env.pidInit = none) (h1 : env.authInit = none) (h : env.checkAndClean = some e) :
    run env fs =
      (Outcome.crashed e, ⟨startFs env fs, [], 0, none, env.dev, none,
        bootEvents env fs ++
          [Event.authInit, Event.checkAndClean,
            Event.logError "main: Failed to run check and clean" ["error"] e, Event.panic e,
            Event.recover (some e), Event.logError "main: Panic" ["stack", "panic"] e,
            Event.panic e], [], []⟩) := by
  unfold run
  rw [main_checkAndClean env fs e h0 h1 h]

theorem run_started (env : Env) (fs : String → Option Nat)
    (h0 : env.pidInit = none) (h1 : env.authInit = none) (h2 : env.checkAndClean = none) :
    run env fs = (exitOutcome env.profiles, startedWorld env fs) := by
  unfold run
  rw [main_started env fs h0 h1 h2]
  unfold loopResult exitOutcome
  cases h : firstPanic env.profiles <;> simp [startedWorld]

/-! ## The steps after the signal -/

theorem afterSignal_boot (env : Env) (fs : String → Option Nat) (rest : List Event) :
    afterSignal (bootEvents env fs ++ startupEvents ++ rest) = rest := by
  unfold bootEvents devEvents startEvents startupEvents
  cases env.dev <;> by_cases hp : env.goos = "linux" ∨ env.goos = "darwin" <;>
    simp [hp, afterSignal]

theorem afterSignal_none (tr : List Event) (h : ∀ e ∈ tr, e ≠ Event.waitSignal) :
    afterSignal tr = [] := by
  induction tr with
  | nil => rfl
  | cons e rest ih =>
    have he : e ≠ Event.waitSignal := h e (List.mem_cons_self _ _)
    have hr : ∀ x ∈ rest, x ≠ Event.waitSignal := fun x hx => h x (List.mem_cons_of_mem _ hx)
    cases e <;> simp_all [afterSignal]

theorem bootEvents_no_wait (env : Env) (fs : String → Option Nat) :
    ∀ e ∈ bootEvents env fs, e ≠ Event.waitSignal := by
  unfold bootEvents devEvents startEvents
  cases env.dev <;> by_cases hp : env.goos = "linux" ∨ env.goos = "darwin" <;> simp [hp]

theorem shutdownTrace_started (env : Env) (fs : String → Option Nat)
    (h0 : env.pidInit = none) (h1 : env.authInit = none) (h2 : env.checkAndClean = none) :
    shutdownTrace env fs =
      shutdownEvents env (goroutineFs env (startFs env fs))
        (goroutineServing env (startFs env fs) "127.0.0.1:9770") ++ exitEvents env.profiles := by
  unfold shutdownTrace
  rw [run_started env fs h0 h1 h2]
  simp only [startedWorld, List.append_assoc]
  rw [← List.append_assoc (bootEvents env fs)]
  exact afterSignal_boot env fs _

theorem shutdownTrace_failed (env : Env) (fs : String → Option Nat)
    (h : ¬ (env.pidInit = none ∧ env.authInit = none ∧ env.checkAndClean = none)) :
    shutdownTrace env fs = [] := by
  unfold shutdownTrace
  cases h0 : env.pidInit with
  | some e =>
    rw [run_pidInit env fs e h0]
    apply afterSignal_none
    unfold devEvents
    cases env.dev <;> simp
  | none =>
    cases h1 : env.authInit with
    | some e =>
      rw [run_authInit env fs e h0 h1]
      apply afterSignal_none
      intro x hx
      rcases List.mem_append.mp hx with hb | hb
      · exact bootEvents_no_wait env fs x hb
      · intro hw
        subst hw
        simp at hb
    | none =>
      cases h2 : env.checkAndClean with
      | some e =>
        rw [run_checkAndClean env fs e h0 h1 h2]
        apply afterSignal_none
        intro x hx
        rcases List.mem_append.mp hx with hb | hb
        · exact bootEvents_no_wait env fs x hb
        · intro hw
          subst hw
          simp at hb
      | none => exact absurd ⟨h0, h1, h2⟩ h

/-! ## Kinds of steps -/

/-- The teardown steps that are neither a server shutdown nor an unlink. -/
theorem afterDrive_kind (ps : List Session) :
    ∀ e ∈ afterDrive ps,
      e.isServerDown = false ∧ e.isUnlink = false ∧ e.isServerShutdown = false ∧
        e.isServerClose = false := by
  have hl : ∀ e ∈ loopEvents ps,
      e.isServerDown = false ∧ e.isUnlink = false ∧ e.isServerShutdown = false ∧
        e.isServerClose = false := by
    intro e he
    unfold loopEvents at he
    rcases List.mem_append.mp he with h | h
    · obtain ⟨s, _, rfl⟩ := List.mem_map.mp h
      exact ⟨rfl, rfl, rfl, rfl⟩
    · cases hf : firstPanic ps <;> simp [hf] at h
      subst h
      exact ⟨rfl, rfl, rfl, rfl⟩
  have ht : ∀ e ∈ loopTail ps,
      e.isServerDown = false ∧ e.isUnlink = false ∧ e.isServerShutdown = false ∧
        e.isServerClose = false := by
    intro e he
    unfold loopTail at he
    cases hf : firstPanic ps <;> simp [hf] at he
    subst he
    exact ⟨rfl, rfl, rfl, rfl⟩
  have hx : ∀ e ∈ exitEvents ps,
      e.isServerDown = false ∧ e.isUnlink = false ∧ e.isServerShutdown = false ∧
        e.isServerClose = false := by
    intro e he
    unfold exitEvents at he
    cases hf : firstPanic ps <;> simp [hf] at he
    · subst he
      exact ⟨rfl, rfl, rfl, rfl⟩
    · rcases he with rfl | rfl | rfl <;> exact ⟨rfl, rfl, rfl, rfl⟩
  intro e he
  unfold afterDrive at he
  rcases List.mem_cons.mp he with rfl | he
  · exact ⟨rfl, rfl, rfl, rfl⟩
  rcases List.mem_cons.mp he with rfl | he
  · exact ⟨rfl, rfl, rfl, rfl⟩
  rcases List.mem_append.mp he with he | he
  · rcases List.mem_append.mp he with he | he
    · exact hl e he
    · exact ht e he
  rcases List.mem_cons.mp he with rfl | he
  · exact ⟨rfl, rfl, rfl, rfl⟩
  exact hx e he

theorem afterDrive_noServerDown (ps : List Session) :
    ∀ e ∈ afterDrive ps, e.isServerDown = false :=
  fun e he => (afterDrive_kind ps e he).1

theorem afterDrive_noUnlink (ps : List Session) :
    ∀ e ∈ afterDrive ps, e.isUnlink = false :=
  fun e he => (afterDrive_kind ps e he).2.1

theorem afterDrive_noServerShutdown (ps : List Session) :
    ∀ e ∈ afterDrive ps, e.isServerShutdown = false :=
  fun e he => (afterDrive_kind ps e he).2.2.1

theorem shutdownTrace_shape (env : Env) (fs : String → Option Nat)
    (h0 : env.pidInit = none) (h1 : env.authInit = none) (h2 : env.checkAndClean = none) :
    shutdownTrace env fs =
      Event.contextWithTimeout 1000 :: Event.serverShutdown ::
        (driveTail env (goroutineFs env (startFs env fs))
          (goroutineServing env (startFs env fs) "127.0.0.1:9770") ++
          afterDrive env.profiles) := by
  rw [shutdownTrace_started env fs h0 h1 h2]
  simp [shutdownEvents, afterDrive]

/-! ## Order of steps -/

theorem precedes_nil (p q : Event → Bool) : Precedes p q [] := by
  intro i j e1 e2 h
  simp at h

theorem precedes_split (p q : Event → Bool) (a b tr : List Event) (h : tr = a ++ b)
    (ha : ∀ e ∈ a, q e = false) (hb : ∀ e ∈ b, p e = false) : Precedes p q tr := by
  subst h
  intro i j e1 e2 h1 h2 hp hq
  by_contra hij
  have hji : j ≤ i := Nat.le_of_not_lt hij
  by_cases hi : i < a.length
  · have hj : j < a.length := Nat.lt_of_le_of_lt hji hi
    rw [List.getElem?_append_left hj] at h2
    have := ha e2 (List.getElem?_mem h2)
    rw [hq] at this
    exact Bool.noConfusion this
  · rw [List.getElem?_append_right (Nat.le_of_not_lt hi)] at h1
    have := hb e1 (List.getElem?_mem h1)
    rw [hp] at this
    exact Bool.noConfusion this

theorem driveTail_split (env : Env) (fs : String → Option Nat) (ls : List Endpoint) :
    ∃ a m c, driveTail env fs ls = a ++ (m ++ c) ∧
      (∀ e ∈ a, e.isUnlink = false ∧ e.isStop = false) ∧
      (∀ e ∈ m, e.isServerDown = false ∧ e.isStop = false) ∧
      (∀ e ∈ c, e.isServerDown = false ∧ e.isUnlink = false) := by
  unfold driveTail
  cases env.shutdownPanics with
  | some v =>
    exact ⟨[Event.panic v, Event.recover (some v)], [], [], by simp,
      by simp [Event.isUnlink, Event.isStop], by simp, by simp⟩
  | none =>
    cases env.closePanics with
    | some v =>
      exact ⟨[Event.serverClose, Event.panic v, Event.recover (some v)], [], [], by simp,
        by simp [Event.isUnlink, Event.isStop], by simp, by simp⟩
    | none =>
      by_cases hp : env.goos = "linux" ∨ env.goos = "darwin"
      · exact ⟨[Event.serverClose],
          [Event.unlink "/var/run/vpnht.sock"
            (unlinkFailed env.shutdownUnlinkDenied (closeFs env fs ls) "/var/run/vpnht.sock")],
          [Event.recover none], by simp [hp],
          by simp [Event.isUnlink, Event.isStop],
          by simp [Event.isServerDown, Event.isServerShutdown, Event.isServerClose, Event.isStop],
          by simp [Event.isServerDown, Event.isServerShutdown, Event.isServerClose,
            Event.isUnlink]⟩
      · exact ⟨[Event.serverClose], [], [Event.recover none], by simp [hp],
          by simp [Event.isUnlink, Event.isStop], by simp,
          by simp [Event.isServerDown, Event.isServerShutdown, Event.isServerClose,
            Event.isUnlink]⟩

theorem driveTail_noServerShutdown (env : Env) (fs : String → Option Nat) (ls : List Endpoint) :
    ∀ e ∈ driveTail env fs ls, e.isServerShutdown = false := by
  unfold driveTail
  cases env.shutdownPanics <;> cases env.closePanics <;>
    by_cases hp : env.goos = "linux" ∨ env.goos = "darwin" <;>
    simp [hp, Event.isServerShutdown]

/-! ## Order of the shutdown sequence -/

/-- C1. In the shutdown sequence that `main` runs after the signal, on every
platform, for every list of sessions and whatever fails: `server.Shutdown`
comes before `server.Close`, both come before the unlink of the socket, the
unlink comes before every `Stop`, and the server shutdown comes before every
`Stop`; when the bootstrap passes, `server.Shutdown` is the first call of the
sequence. -/
theorem shutdown_order (env : Env) (fs : String → Option Nat) :
    Precedes Event.isServerShutdown Event.isServerClose (shutdownTrace env fs) ∧
    Precedes Event.isServerDown Event.isUnlink (shutdownTrace env fs) ∧
    Precedes Event.isUnlink Event.isStop (shutdownTrace env fs) ∧
    Precedes Event.isServerDown Event.isStop (shutdownTrace env fs) ∧
    (env.pidInit = none → env.authInit = none → env.checkAndClean = none →
      (shutdownTrace env fs)[1]? = some Event.serverShutdown) := by
  by_cases hb : env.pidInit = none ∧ env.authInit = none ∧ env.checkAndClean = none
  · obtain ⟨h0, h1, h2⟩ := hb
    rw [shutdownTrace_shape env fs h0 h1 h2]
    have kA := afterDrive_kind env.profiles
    obtain ⟨a, m, c, hd, ha, hm, hc⟩ := driveTail_split env (goroutineFs env (startFs env fs))
      (goroutineServing env (startFs env fs) "127.0.0.1:9770")
    have hS := driveTail_noServerShutdown env (goroutineFs env (startFs env fs))
      (goroutineServing env (startFs env fs) "127.0.0.1:9770")
    refine ⟨?_, ?_, ?_, ?_, fun _ _ _ => by simp⟩
    · refine precedes_split _ _ [Event.contextWithTimeout 1000, Event.serverShutdown] _ _ rfl
        (by simp [Event.isServerClose]) ?_
      intro e he
      rcases List.mem_append.mp he with h | h
      · exact hS e h
      · exact (kA e h).2.2.1
    · rw [hd]
      refine precedes_split _ _ (Event.contextWithTimeout 1000 :: Event.serverShutdown :: a)
        (m ++ c ++ afterDrive env.profiles) _ (by simp) ?_ ?_
      · intro e he
        rcases List.mem_cons.mp he with rfl | he
        · rfl
        rcases List.mem_cons.mp he with rfl | he
        · rfl
        exact (ha e he).1
      · intro e he
        rcases List.mem_append.mp he with h | h
        · rcases List.mem_append.mp h with h | h
          · exact (hm e h).1
          · exact (hc e h).1
        · exact (kA e h).1
    · rw [hd]
      refine precedes_split _ _
        (Event.contextWithTimeout 1000 :: Event.serverShutdown :: (a ++ m))
        (c ++ afterDrive env.profiles) _ (by simp) ?_ ?_
      · intro e he
        rcases List.mem_cons.mp he with rfl | he
        · rfl
        rcases List.mem_cons.mp he with rfl | he
        · rfl
        rcases List.mem_append.mp he with h | h
        · exact (ha e h).2
        · exact (hm e h).2
      · intro e he
        rcases List.mem_append.mp he with h | h
        · exact (hc e h).2
        · exact (kA e h).2.1
    · rw [hd]
      refine precedes_split _ _
        (Event.contextWithTimeout 1000 :: Event.serverShutdown :: (a ++ m))
        (c ++ afterDrive env.profiles) _ (by simp) ?_ ?_
      · intro e he
        rcases List.mem_cons.mp he with rfl | he
        · rfl
        rcases List.mem_cons.mp he with rfl | he
        · rfl
        rcases List.mem_append.mp he with h | h
        · exact (ha e h).2
        · exact (hm e h).2
      · intro e he
        rcases List.mem_append.mp he with h | h
        · exact (hc e h).1
        · exact (kA e h).1
  · rw [shutdownTrace_failed env fs hb]
    exact ⟨precedes_nil _ _, precedes_nil _ _, precedes_nil _ _, precedes_nil _ _,
      fun h0 h1 h2 => absurd ⟨h0, h1, h2⟩ hb⟩

/-! ## The sessions that are stopped -/

theorem stopsOf_append (a b : List Event) : stopsOf (a ++ b) = stopsOf a ++ stopsOf b := by
  induction a with
  | nil => rfl
  | cons e rest ih => cases e <;> simp [stopsOf, ih]

theorem stopsOf_map_stop (ps : List Session) : stopsOf (ps.map Event.stop) = ps := by
  induction ps with
  | nil => rfl
  | cons p rest ih => simp [stopsOf, ih]

theorem stopsOf_loopEvents (ps : List Session) : stopsOf (loopEvents ps) = stopsUpToPanic ps := by
  unfold loopEvents
  rw [stopsOf_append, stopsOf_map_stop]
  cases firstPanic ps <;> simp [stopsOf]

theorem stopsOf_afterDrive (ps : List Session) : stopsOf (afterDrive ps) = stopsUpToPanic ps := by
  unfold afterDrive loopTail exitEvents
  cases h : firstPanic ps <;>
    simp [stopsOf, stopsOf_append, stopsOf_loopEvents]

theorem stopsOf_driveTail (env : Env) (fs : String → Option Nat) (ls : List Endpoint) :
    stopsOf (driveTail env fs ls) = [] := by
  unfold driveTail
  cases env.shutdownPanics <;> cases env.closePanics <;>
    by_cases hp : env.goos = "linux" ∨ env.goos = "darwin" <;>
    simp [hp, stopsOf]

theorem stopsOf_bootEvents (env : Env) (fs : String → Option Nat) :
    stopsOf (bootEvents env fs) = [] := by
  unfold bootEvents devEvents startEvents
  cases env.dev <;> by_cases hp : env.goos = "linux" ∨ env.goos = "darwin" <;>
    simp [hp, stopsOf]

theorem stopsOf_started (env : Env) (fs : String → Option Nat) :
    stopsOf (startedWorld env fs).mainTrace = stopsUpToPanic env.profiles := by
  have hx : stopsOf (exitEvents env.profiles) = [] := by
    unfold exitEvents
    cases firstPanic env.profiles <;> simp [stopsOf]
  have ht : stopsOf (loopTail env.profiles) = [] := by
    unfold loopTail
    cases firstPanic env.profiles <;> simp [stopsOf]
  have hd : stopsOf (devEvents env) = [] := by
    unfold devEvents
    cases env.dev <;> simp [stopsOf]
  have hs : stopsOf (startEvents env fs) = [] := by
    unfold startEvents
    by_cases hp : env.goos = "linux" ∨ env.goos = "darwin" <;> simp [hp, stopsOf]
  simp [startedWorld, shutdownEvents, stopsOf_append, stopsOf_bootEvents, stopsOf,
    startupEvents, stopsOf_driveTail, stopsOf_loopEvents, hx, ht, hd, hs]

theorem stopsUpToPanic_all (ps : List Session) (h : ∀ s ∈ ps, s.stopPanics = false) :
    stopsUpToPanic ps = ps ∧ firstPanic ps = none := by
  induction ps with
  | nil => exact ⟨rfl, rfl⟩
  | cons p rest ih =>
    have hp : p.stopPanics = false := h p (List.mem_cons_self _ _)
    have hr := ih (fun s hs => h s (List.mem_cons_of_mem _ hs))
    unfold Session.stopPanics at hp
    cases hres : p.result <;> simp [hres] at hp <;>
      simp [stopsUpToPanic, firstPanic, hres, hr.1, hr.2]

theorem stopsUpToPanic_first (pre post : List Session) (s : Session) (v : Error)
    (h : ∀ p ∈ pre, p.stopPanics = false) (hs : s.result = StopResult.panics v) :
    stopsUpToPanic (pre ++ s :: post) = pre ++ [s] ∧ firstPanic (pre ++ s :: post) = some v := by
  induction pre with
  | nil => simp [stopsUpToPanic, firstPanic, hs]
  | cons p rest ih =>
    have hp : p.stopPanics = false := h p (List.mem_cons_self _ _)
    have hr := ih (fun s hs => h s (List.mem_cons_of_mem _ hs))
    unfold Session.stopPanics at hp
    cases hres : p.result <;> simp [hres] at hp <;>
      simp [stopsUpToPanic, firstPanic, hres, hr.1, hr.2]

theorem sleep750_not_in_driveTail (env : Env) (fs : String → Option Nat) (ls : List Endpoint) :
    Event.sleep 750 ∉ driveTail env fs ls := by
  unfold driveTail
  cases env.shutdownPanics <;> cases env.closePanics <;>
    by_cases hp : env.goos = "linux" ∨ env.goos = "darwin" <;>
    simp [hp]

theorem sleep750_not_in_afterDrive (ps : List Session) (v : Error) (h : firstPanic ps = some v) :
    Event.sleep 750 ∉ afterDrive ps := by
  unfold afterDrive loopEvents loopTail exitEvents
  simp [h]

theorem loop_suffix_of_started (env : Env) (fs : String → Option Nat) :
    (loopEvents env.profiles ++ loopTail env.profiles ++
      Event.webCancel :: exitEvents env.profiles) <:+ (startedWorld env fs).mainTrace := by
  refine ⟨bootEvents env fs ++ startupEvents ++
    (Event.contextWithTimeout 1000 :: Event.serverShutdown ::
      driveTail env (goroutineFs env (startFs env fs))
        (goroutineServing env (startFs env fs) "127.0.0.1:9770") ++
      [Event.sleep 250, Event.getProfiles]), ?_⟩
  simp [startedWorld, shutdownEvents]

/-- C2, as the code has it. When the bootstrap passes: if no `Stop` panics
(returned errors included), `main` calls `Stop` exactly once on each session, in
enumeration order, then sleeps 750 ms, runs its deferred calls with nothing to
recover, and exits; if the first panicking `Stop` is that of session `s`, `main`
calls `Stop` exactly once on each session up to and including `s` and on none
after it, the 750 ms sleep does not run, the deferred `webCancel` runs, the
recovery boundary of `main` recovers the panic, writes the log entry
`main: Panic` with it and raises it again, and the process crashes with the
value of the panic. -/
theorem stop_loop_ends_at_first_panic (env : Env) (fs : String → Option Nat)
    (h0 : env.pidInit = none) (h1 : env.authInit = none) (h2 : env.checkAndClean = none) :
    ((∀ s ∈ env.profiles, s.stopPanics = false) →
      stopsOf (run env fs).2.mainTrace = env.profiles ∧ (run env fs).1 = Outcome.exited ∧
      [Event.sleep 750, Event.webCancel, Event.recover none] <:+ (run env fs).2.mainTrace) ∧
    (∀ (pre post : List Session) (s : Session) (v : Error),
      env.profiles = pre ++ s :: post → (∀ p ∈ pre, p.stopPanics = false) →
      s.result = StopResult.panics v →
        stopsOf (run env fs).2.mainTrace = pre ++ [s] ∧
        (run env fs).1 = Outcome.crashed v ∧
        Event.sleep 750 ∉ shutdownTrace env fs ∧
        [Event.stop s, Event.panic v, Event.webCancel, Event.recover (some v),
          Event.logError "main: Panic" ["stack", "panic"] v, Event.panic v] <:+
          (run env fs).2.mainTrace) := by
  have hsuf := loop_suffix_of_started env fs
  refine ⟨?_, ?_⟩
  · intro hall
    obtain ⟨hs, hf⟩ := stopsUpToPanic_all env.profiles hall
    rw [run_started env fs h0 h1 h2]
    refine ⟨by simp [stopsOf_started, hs], by simp [exitOutcome, hf], ?_⟩
    refine List.IsSuffix.trans ?_ hsuf
    refine ⟨env.profiles.map Event.stop, ?_⟩
    simp [loopEvents, loopTail, exitEvents, hs, hf]
  · intro pre post s v hps hpre hres
    obtain ⟨hs, hf⟩ := stopsUpToPanic_first pre post s v hpre hres
    rw [← hps] at hs hf
    rw [shutdownTrace_shape env fs h0 h1 h2, run_started env fs h0 h1 h2]
    refine ⟨by simp [stopsOf_started, hs], by simp [exitOutcome, hf], ?_, ?_⟩
    · intro hmem
      rcases List.mem_cons.mp hmem with h | hmem
      · exact Event.noConfusion h
      rcases List.mem_cons.mp hmem with h | hmem
      · exact Event.noConfusion h
      rcases List.mem_append.mp hmem with h | h
      · exact sleep750_not_in_driveTail _ _ _ h
      · exact sleep750_not_in_afterDrive _ v hf h
    · refine List.IsSuffix.trans ?_ hsuf
      refine ⟨pre.map Event.stop, ?_⟩
      simp [loopEvents, loopTail, exitEvents, hs, hf]

/-! ## The Request Server goroutine -/

theorem run_failed_serverTrace (env : Env) (fs : String → Option Nat)
    (h : ¬ (env.pidInit = none ∧ env.authInit = none ∧ env.checkAndClean = none)) :
    (run env fs).2.serverTrace = [] := by
  cases h0 : env.pidInit with
  | some e => rw [run_pidInit env fs e h0]
  | none =>
    cases h1 : env.authInit with
    | some e => rw [run_authInit env fs e h0 h1]
    | none =>
      cases h2 : env.checkAndClean with
      | some e => rw [run_checkAndClean env fs e h0 h1 h2]
      | none => exact absurd ⟨h0, h1, h2⟩ h

theorem started_of_serverTrace (env : Env) (fs : String → Option Nat) (e : Event)
    (h : e ∈ (run env fs).2.serverTrace) :
    env.pidInit = none ∧ env.authInit = none ∧ env.checkAndClean = none := by
  by_contra hb
  rw [run_failed_serverTrace env fs hb] at h
  simp at h

theorem started_mainTrace_mem (env : Env) (fs : String → Option Nat) (e : Event)
    (h : e ∈ startupEvents) : e ∈ (startedWorld env fs).mainTrace := by
  simp only [startedWorld, List.mem_append]
  exact Or.inl (Or.inl (Or.inr h))

/-- C3, as the code has it. If the bind of the chosen transport fails, the
goroutine logs the error and panics, its deferred `recover` discards the panic
and the process does not terminate: no goroutine crash is recorded, `main`
starts the Background Ticker and blocks on the signal with no listening
endpoint, and the process exits normally after the signal unless a `Stop`
panics. -/
theorem bind_failure_is_recovered (env : Env) (fs : String → Option Nat)
    (hfail : bindFailed (run env fs).2.serverTrace) :
    (run env fs).2.goroutineCrash = none ∧
    Event.goPingServersTicker ∈ (run env fs).2.mainTrace ∧
    Event.waitSignal ∈ (run env fs).2.mainTrace ∧
    (∃ snap, (run env fs).2.signalAt = some snap ∧ snap.listeners = []) ∧
    (∃ v, [Event.logError "main: Server error" ["error"] v, Event.panic v,
      Event.recover (some v)] <:+ (run env fs).2.serverTrace) ∧
    ((∀ s ∈ env.profiles, s.stopPanics = false) → (run env fs).1 = Outcome.exited) := by
  have hb : env.pidInit = none ∧ env.authInit = none ∧ env.checkAndClean = none := by
    rcases hfail with h | h
    · exact started_of_serverTrace env fs _ h
    · exact started_of_serverTrace env fs _ h
  obtain ⟨h0, h1, h2⟩ := hb
  rw [run_started env fs h0 h1 h2] at hfail ⊢
  refine ⟨rfl, started_mainTrace_mem env fs _ (by simp [startupEvents]),
    started_mainTrace_mem env fs _ (by simp [startupEvents]), ?_, ?_, ?_⟩
  · refine ⟨_, rfl, ?_⟩
    simp only [startedWorld, bindFailed] at hfail ⊢
    unfold goroutineEvents at hfail
    unfold goroutineListeners
    by_cases hp : env.goos ≠ "linux" ∧ env.goos ≠ "darwin"
    · cases hbe : env.bindErr <;> simp [hp, hbe] at hfail ⊢
    · cases hf : startFs env fs "/var/run/vpnht.sock" with
      | some m => simp [hp, hf]
      | none =>
        cases hbe : env.bindErr with
        | some e => simp [hp, hf, hbe]
        | none => cases hc : env.chmodErr <;> simp [hp, hf, hbe, hc] at hfail
  · simp only [startedWorld, bindFailed] at hfail ⊢
    unfold goroutineEvents at hfail ⊢
    by_cases hp : env.goos ≠ "linux" ∧ env.goos ≠ "darwin"
    · cases hbe : env.bindErr with
      | some e =>
        refine ⟨e, ?_⟩
        rw [if_pos hp]
        exact List.suffix_cons _ _
      | none => simp [hp, hbe] at hfail
    · cases hf : startFs env fs "/var/run/vpnht.sock" with
      | some m =>
        refine ⟨Error.writeError "main: Failed to create unix socket" (Error.raw "EADDRINUSE"),
          ?_⟩
        rw [if_neg hp]
        simp only [hf]
        exact List.suffix_cons _ _
      | none =>
        cases hbe : env.bindErr with
        | some e =>
          refine ⟨Error.writeError "main: Failed to create unix socket" e, ?_⟩
          rw [if_neg hp]
          simp only [hf]
          exact List.suffix_cons _ _
        | none => cases hc : env.chmodErr <;> simp [hp, hf, hbe, hc] at hfail
  · intro hall
    simp [exitOutcome, (stopsUpToPanic_all env.profiles hall).2]

/-- C4, as the code has it. Whatever panic is raised inside the Request Server
goroutine (for a bind error, for a chmod error on the socket, or for the error
that `ListenAndServe` returns), the deferred `recover()` of the goroutine
discards it: the recovery is the last step of the goroutine, no goroutine crash
is recorded, and `main` goes on to start the ticker and to block on the signal;
the process exits normally after the signal unless a `Stop` panics. -/
theorem goroutine_panic_is_discarded (env : Env) (fs : String → Option Nat) (v : Error)
    (hpanic : Event.panic v ∈ (run env fs).2.serverTrace) :
    (run env fs).2.serverTrace.getLast? = some (Event.recover (some v)) ∧
    (run env fs).2.goroutineCrash = none ∧
    Event.goPingServersTicker ∈ (run env fs).2.mainTrace ∧
    Event.waitSignal ∈ (run env fs).2.mainTrace ∧
    ((∀ s ∈ env.profiles, s.stopPanics = false) → (run env fs).1 = Outcome.exited) := by
  obtain ⟨h0, h1, h2⟩ := started_of_serverTrace env fs _ hpanic
  rw [run_started env fs h0 h1 h2] at hpanic ⊢
  refine ⟨?_, rfl, started_mainTrace_mem env fs _ (by simp [startupEvents]),
    started_mainTrace_mem env fs _ (by simp [startupEvents]), ?_⟩
  · simp only [startedWorld] at hpanic ⊢
    unfold goroutineEvents at hpanic ⊢
    by_cases hp : env.goos ≠ "linux" ∧ env.goos ≠ "darwin"
    · rw [if_pos hp] at hpanic ⊢
      cases hbe : env.bindErr <;> simp [hbe] at hpanic ⊢ <;> simp [hpanic]
    · rw [if_neg hp] at hpanic ⊢
      cases hf : startFs env fs "/var/run/vpnht.sock" with
      | some m =>
        simp [hf] at hpanic ⊢
        simp [hpanic]
      | none =>
        cases hbe : env.bindErr with
        | some e =>
          simp [hf, hbe] at hpanic ⊢
          simp [hpanic]
        | none =>
          cases hc : env.chmodErr <;> simp [hf, hbe, hc] at hpanic ⊢
          simp [hpanic]
  · intro hall
    simp [exitOutcome, (stopsUpToPanic_all env.profiles hall).2]

/-! ## The shutdown closure -/

theorem driveTail_facts (env : Env) (fs : String → Option Nat) (ls : List Endpoint) :
    (∃ body, driveTail env fs ls =
      body ++ [Event.recover (env.shutdownPanics <|> env.closePanics)]) ∧
    (Event.serverClose ∈ driveTail env fs ls ↔ env.shutdownPanics = none) ∧
    ((∃ b, Event.unlink "/var/run/vpnht.sock" b ∈ driveTail env fs ls) ↔
      ((env.goos = "linux" ∨ env.goos = "darwin") ∧ env.shutdownPanics = none ∧
        env.closePanics = none)) := by
  unfold driveTail
  cases hs : env.shutdownPanics with
  | some v => exact ⟨⟨[Event.panic v], by simp⟩, by simp, by simp⟩
  | none =>
    cases hc : env.closePanics with
    | some v => exact ⟨⟨[Event.serverClose, Event.panic v], by simp⟩, by simp, by simp⟩
    | none =>
      by_cases hp : env.goos = "linux" ∨ env.goos = "darwin"
      · exact ⟨⟨[Event.serverClose, Event.unlink "/var/run/vpnht.sock"
            (unlinkFailed env.shutdownUnlinkDenied (closeFs env fs ls) "/var/run/vpnht.sock")],
          by simp [hp]⟩, by simp, by simp [hp]⟩
      · exact ⟨⟨[Event.serverClose], by simp [hp]⟩, by simp, by simp [hp]⟩

theorem afterDrive_returns (ps : List Session) (h : ∀ s ∈ ps, s.stopPanics = false) :
    afterDrive ps =
      Event.sleep 250 :: Event.getProfiles ::
        (ps.map Event.stop ++ [Event.sleep 750, Event.webCancel, Event.recover none]) := by
  obtain ⟨hs, hf⟩ := stopsUpToPanic_all ps h
  simp [afterDrive, loopEvents, loopTail, exitEvents, hs, hf]

/-- C5, as the code has it. When the bootstrap passes, whatever fails in the
shutdown closure is recovered there, and what follows the closure still runs:
the closure ends with its `recover`, then come the 250 ms sleep and
`GetProfiles`, and, unless a `Stop` panics, a `Stop` on every session, the
750 ms sleep and the normal exit of `main`. Inside the closure a panic skips
the rest of the closure: `server.Close` is called exactly when `server.Shutdown`
did not panic, and the socket unlink is attempted exactly when the platform is
linux or darwin and neither call panicked. -/
theorem shutdown_closure_is_best_effort (env : Env) (fs : String → Option Nat)
    (h0 : env.pidInit = none) (h1 : env.authInit = none) (h2 : env.checkAndClean = none) :
    (∃ pre post, shutdownTrace env fs =
        pre ++ Event.recover (env.shutdownPanics <|> env.closePanics) ::
          Event.sleep 250 :: Event.getProfiles :: post ∧
      ((∀ s ∈ env.profiles, s.stopPanics = false) →
        post = env.profiles.map Event.stop ++
          [Event.sleep 750, Event.webCancel, Event.recover none] ∧
        (run env fs).1 = Outcome.exited)) ∧
    (Event.serverClose ∈ shutdownTrace env fs ↔ env.shutdownPanics = none) ∧
    ((∃ b, Event.unlink "/var/run/vpnht.sock" b ∈ shutdownTrace env fs) ↔
      ((env.goos = "linux" ∨ env.goos = "darwin") ∧ env.shutdownPanics = none ∧
        env.closePanics = none)) := by
  obtain ⟨⟨body, hbody⟩, hclose, hunlink⟩ :=
    driveTail_facts env (goroutineFs env (startFs env fs))
      (goroutineServing env (startFs env fs) "127.0.0.1:9770")
  have kA := afterDrive_kind env.profiles
  rw [shutdownTrace_shape env fs h0 h1 h2]
  refine ⟨?_, ?_, ?_⟩
  · refine ⟨Event.contextWithTimeout 1000 :: Event.serverShutdown :: body,
      loopEvents env.profiles ++ loopTail env.profiles ++
        Event.webCancel :: exitEvents env.profiles, ?_, ?_⟩
    · rw [hbody]
      simp [afterDrive]
    · intro hall
      obtain ⟨hs, hf⟩ := stopsUpToPanic_all env.profiles hall
      rw [run_started env fs h0 h1 h2]
      simp [loopEvents, loopTail, exitEvents, hs, hf, exitOutcome]
  · rw [← hclose]
    constructor
    · intro h
      rcases List.mem_cons.mp h with h | h
      · exact Event.noConfusion h
      rcases List.mem_cons.mp h with h | h
      · exact Event.noConfusion h
      rcases List.mem_append.mp h with h | h
      · exact h
      · have := (kA _ h).2.2.2
        simp [Event.isServerClose] at this
    · intro h
      exact List.mem_cons_of_mem _ (List.mem_cons_of_mem _ (List.mem_append_left _ h))
  · rw [← hunlink]
    constructor
    · rintro ⟨b, h⟩
      refine ⟨b, ?_⟩
      rcases List.mem_cons.mp h with h | h
      · exact Event.noConfusion h
      rcases List.mem_cons.mp h with h | h
      · exact Event.noConfusion h
      rcases List.mem_append.mp h with h | h
      · exact h
      · have := (kA _ h).2.1
        simp [Event.isUnlink] at this
    · rintro ⟨b, h⟩
      exact ⟨b, List.mem_cons_of_mem _ (List.mem_cons_of_mem _ (List.mem_append_left _ h))⟩

/-! ## The socket file -/

theorem unlinkFs_removes (fs : String → Option Nat) (path : String) :
    unlinkFs false fs path path = none := by
  unfold unlinkFs
  cases h : fs path <;> simp [h]

theorem startFs_posix (env : Env) (fs : String → Option Nat)
    (hp : env.goos = "linux" ∨ env.goos = "darwin") (hu : env.startupUnlinkDenied = false) :
    startFs env fs "/var/run/vpnht.sock" = none := by
  unfold startFs
  rw [if_pos hp, hu]
  exact unlinkFs_removes fs _

theorem not_posix_iff (env : Env) :
    ¬ (env.goos = "linux" ∨ env.goos = "darwin") ↔ (env.goos ≠ "linux" ∧ env.goos ≠ "darwin") :=
  not_or

/-- C6. A startup in which no step fails creates exactly one listening
endpoint, whatever the platform string: on linux and darwin the unix socket
`/var/run/vpnht.sock`, whose mode is 0777 when the signal arrives, and on every
other platform the TCP listener `127.0.0.1:9770`; the goroutine binds nothing
else. -/
theorem startup_binds_one_endpoint (env : Env) (fs : String → Option Nat)
    (h0 : env.pidInit = none) (h1 : env.authInit = none) (h2 : env.checkAndClean = none)
    (hb : env.bindErr = none) (hc : env.chmodErr = none)
    (hu : env.startupUnlinkDenied = false) :
    ∃ snap, (run env fs).2.signalAt = some snap ∧
      ((env.goos = "linux" ∨ env.goos = "darwin") →
        snap.listeners = [Endpoint.unix "/var/run/vpnht.sock"] ∧
        snap.fs "/var/run/vpnht.sock" = some 0o777 ∧
        endpointsCreated (run env fs).2.serverTrace = [Endpoint.unix "/var/run/vpnht.sock"]) ∧
      (¬ (env.goos = "linux" ∨ env.goos = "darwin") →
        snap.listeners = [Endpoint.tcp "127.0.0.1:9770"] ∧
        endpointsCreated (run env fs).2.serverTrace = [Endpoint.tcp "127.0.0.1:9770"]) := by
  rw [run_started env fs h0 h1 h2]
  refine ⟨_, rfl, ?_, ?_⟩
  · intro hp
    have hn : ¬ (env.goos ≠ "linux" ∧ env.goos ≠ "darwin") := by
      rw [← not_posix_iff]
      exact not_not.mpr hp
    have hs := startFs_posix env fs hp hu
    simp only [startedWorld]
    unfold goroutineListeners goroutineFs goroutineEvents
    rw [if_neg hn, if_neg hn, if_neg hn]
    simp [hs, hb, hc, endpointsCreated]
  · intro hp
    have hn : env.goos ≠ "linux" ∧ env.goos ≠ "darwin" := (not_posix_iff env).mp hp
    simp only [startedWorld]
    unfold goroutineListeners goroutineEvents
    rw [if_pos hn, if_pos hn]
    simp [hb, endpointsCreated]

theorem startFs_stale_eq_clean (env : Env) (fs : String → Option Nat) (m : Nat)
    (hp : env.goos = "linux" ∨ env.goos = "darwin") (hu : env.startupUnlinkDenied = false) :
    startFs env (Function.update fs "/var/run/vpnht.sock" (some m)) =
      startFs env (Function.update fs "/var/run/vpnht.sock" none) := by
  unfold startFs unlinkFs
  rw [if_pos hp, if_pos hp, hu]
  simp

theorem bootEvents_stale (env : Env) (fs : String → Option Nat) (m : Nat)
    (hp : env.goos = "linux" ∨ env.goos = "darwin") (hu : env.startupUnlinkDenied = false) :
    bootEvents env (Function.update fs "/var/run/vpnht.sock" (some m)) =
      (Event.flagParse :: devEvents env ++
        [Event.pidInit, Event.loggerInit, Event.logInfo "main: Service starting"]) ++
        [Event.unlink "/var/run/vpnht.sock" false] := by
  unfold bootEvents startEvents unlinkFailed
  rw [if_pos hp, hu]
  simp

theorem bootEvents_clean (env : Env) (fs : String → Option Nat)
    (hp : env.goos = "linux" ∨ env.goos = "darwin") :
    bootEvents env (Function.update fs "/var/run/vpnht.sock" none) =
      (Event.flagParse :: devEvents env ++
        [Event.pidInit, Event.loggerInit, Event.logInfo "main: Service starting"]) ++
        [Event.unlink "/var/run/vpnht.sock" true] := by
  unfold bootEvents startEvents unlinkFailed
  rw [if_pos hp]
  simp

theorem goServer_not_before_unlink (env : Env) :
    Event.goServer ∉ Event.flagParse :: devEvents env ++
      [Event.pidInit, Event.loggerInit, Event.logInfo "main: Service starting"] := by
  unfold devEvents
  cases env.dev <;> simp

/-- With the unlink not refused, the run over a stale artifact and the run
without it differ in nothing but the result of the startup unlink. -/
theorem stale_and_clean_agree (env : Env) (fs : String → Option Nat) (m : Nat)
    (hp : env.goos = "linux" ∨ env.goos = "darwin") (hu : env.startupUnlinkDenied = false)
    (h0 : env.pidInit = none) :
    (run env (Function.update fs "/var/run/vpnht.sock" (some m))).1 =
      (run env (Function.update fs "/var/run/vpnht.sock" none)).1 ∧
    (run env (Function.update fs "/var/run/vpnht.sock" (some m))).2.fs =
      (run env (Function.update fs "/var/run/vpnht.sock" none)).2.fs ∧
    (run env (Function.update fs "/var/run/vpnht.sock" (some m))).2.listeners =
      (run env (Function.update fs "/var/run/vpnht.sock" none)).2.listeners ∧
    (run env (Function.update fs "/var/run/vpnht.sock" (some m))).2.clock =
      (run env (Function.update fs "/var/run/vpnht.sock" none)).2.clock ∧
    (run env (Function.update fs "/var/run/vpnht.sock" (some m))).2.signalAt =
      (run env (Function.update fs "/var/run/vpnht.sock" none)).2.signalAt ∧
    (run env (Function.update fs "/var/run/vpnht.sock" (some m))).2.serverTrace =
      (run env (Function.update fs "/var/run/vpnht.sock" none)).2.serverTrace ∧
    (∃ a b, Event.goServer ∉ a ∧
      (run env (Function.update fs "/var/run/vpnht.sock" (some m))).2.mainTrace =
        a ++ Event.unlink "/var/run/vpnht.sock" false :: b ∧
      (run env (Function.update fs "/var/run/vpnht.sock" none)).2.mainTrace =
        a ++ Event.unlink "/var/run/vpnht.sock" true :: b) ∧
    (env.authInit = none → env.checkAndClean = none → env.bindErr = none →
      Event.netListen "unix" "/var/run/vpnht.sock" true ∈
        (run env (Function.update fs "/var/run/vpnht.sock" (some m))).2.serverTrace) := by
  have hfs := startFs_stale_eq_clean env fs m hp hu
  have hbs := bootEvents_stale env fs m hp hu
  have hbc := bootEvents_clean env fs hp
  have hgo := goServer_not_before_unlink env
  cases h1 : env.authInit with
  | some e =>
    rw [run_authInit env _ e h0 h1, run_authInit env _ e h0 h1, hfs, hbs, hbc]
    refine ⟨rfl, rfl, rfl, rfl, rfl, rfl,
      ⟨_, [Event.authInit, Event.logError "main: Failed to init auth" ["error"] e,
        Event.panic e, Event.recover (some e),
        Event.logError "main: Panic" ["stack", "panic"] e, Event.panic e], hgo, ?_, ?_⟩, ?_⟩
    · simp
    · simp
    · intro h
      exact Option.noConfusion h
  | none =>
    cases h2 : env.checkAndClean with
    | some e =>
      rw [run_checkAndClean env _ e h0 h1 h2, run_checkAndClean env _ e h0 h1 h2, hfs, hbs, hbc]
      refine ⟨rfl, rfl, rfl, rfl, rfl, rfl,
        ⟨_, [Event.authInit, Event.checkAndClean,
          Event.logError "main: Failed to run check and clean" ["error"] e, Event.panic e,
          Event.recover (some e), Event.logError "main: Panic" ["stack", "panic"] e,
          Event.panic e], hgo, ?_, ?_⟩, ?_⟩
      · simp
      · simp
      · intro _ h
        exact Option.noConfusion h
    | none =>
      rw [run_started env _ h0 h1 h2, run_started env _ h0 h1 h2]
      simp only [startedWorld, hfs, hbs, hbc]
      refine ⟨trivial, trivial, trivial, trivial, trivial, trivial,
        ⟨_, startupEvents ++
          (shutdownEvents env
              (goroutineFs env (startFs env (Function.update fs "/var/run/vpnht.sock" none)))
              (goroutineServing env
                (startFs env (Function.update fs "/var/run/vpnht.sock" none)) "127.0.0.1:9770") ++
            exitEvents env.profiles), hgo, ?_, ?_⟩, ?_⟩
      · simp
      · simp
      · intro _ _ hb
        have hn : ¬ (env.goos ≠ "linux" ∧ env.goos ≠ "darwin") := by
          rw [← not_posix_iff]
          exact not_not.mpr hp
        have hs := startFs_posix env (Function.update fs "/var/run/vpnht.sock" none) hp hu
        unfold goroutineEvents
        rw [if_neg hn]
        cases hc : env.chmodErr <;> simp [hs, hb, hc]

theorem stale_socket_kept_when_refused (env : Env) (fs : String → Option Nat) (m : Nat)
    (hp : env.goos = "linux" ∨ env.goos = "darwin") (hd : env.startupUnlinkDenied = true)
    (h0 : env.pidInit = none) (h1 : env.authInit = none) (h2 : env.checkAndClean = none) :
    Event.unlink "/var/run/vpnht.sock" true ∈
      (run env (Function.update fs "/var/run/vpnht.sock" (some m))).2.mainTrace ∧
    Event.netListen "unix" "/var/run/vpnht.sock" false ∈
      (run env (Function.update fs "/var/run/vpnht.sock" (some m))).2.serverTrace ∧
    (∃ snap, (run env (Function.update fs "/var/run/vpnht.sock" (some m))).2.signalAt =
        some snap ∧ snap.listeners = [] ∧ snap.fs "/var/run/vpnht.sock" = some m) ∧
    (env.bindErr = none →
      Event.netListen "unix" "/var/run/vpnht.sock" true ∈
        (run env (Function.update fs "/var/run/vpnht.sock" none)).2.serverTrace) := by
  have hn : ¬ (env.goos ≠ "linux" ∧ env.goos ≠ "darwin") := by
    rw [← not_posix_iff]
    exact not_not.mpr hp
  have hs : startFs env (Function.update fs "/var/run/vpnht.sock" (some m)) =
      Function.update fs "/var/run/vpnht.sock" (some m) := by
    unfold startFs unlinkFs
    rw [if_pos hp, hd]
    simp
  have hc : startFs env (Function.update fs "/var/run/vpnht.sock" none) =
      Function.update fs "/var/run/vpnht.sock" none := by
    unfold startFs unlinkFs
    rw [if_pos hp, hd]
    simp
  rw [run_started env _ h0 h1 h2, run_started env _ h0 h1 h2]
  simp only [startedWorld, hs, hc]
  refine ⟨?_, ?_, ⟨_, rfl, ?_, ?_⟩, ?_⟩
  · unfold bootEvents startEvents unlinkFailed
    rw [if_pos hp, hd]
    simp
  · unfold goroutineEvents
    rw [if_neg hn]
    simp
  · unfold goroutineListeners
    rw [if_neg hn]
    simp
  · unfold goroutineFs
    rw [if_neg hn]
    simp
  · intro hb
    unfold goroutineEvents
    rw [if_neg hn]
    cases hch : env.chmodErr <;> simp [hb, hch]

/-- C7, as the code has it. On linux and darwin, in a run that gets past
`utils.PidInit`, `main` unlinks `/var/run/vpnht.sock` before it launches the
goroutine that binds it, and ignores the result. When the operating system
does not refuse the unlink, a startup over a filesystem with a stale artifact
at that path and one over the same filesystem without it differ in nothing but
the result of the unlink (success in the first, an error in the second): same
outcome, same filesystem, listeners, clock and state at the signal, same
goroutine steps, same steps of `main` around the unlink, and the bind of the
socket succeeds in both unless the operating system reports another error.
When the operating system refuses the unlink, the stale artifact stays, the
bind fails because the path exists and no endpoint listens at the signal,
while the startup without the artifact binds. -/
theorem stale_socket_is_removed_before_bind (env : Env) (fs : String → Option Nat) (m : Nat)
    (hp : env.goos = "linux" ∨ env.goos = "darwin") (h0 : env.pidInit = none) :
    (env.startupUnlinkDenied = false →
      (run env (Function.update fs "/var/run/vpnht.sock" (some m))).1 =
        (run env (Function.update fs "/var/run/vpnht.sock" none)).1 ∧
      (run env (Function.update fs "/var/run/vpnht.sock" (some m))).2.fs =
        (run env (Function.update fs "/var/run/vpnht.sock" none)).2.fs ∧
      (run env (Function.update fs "/var/run/vpnht.sock" (some m))).2.listeners =
        (run env (Function.update fs "/var/run/vpnht.sock" none)).2.listeners ∧
      (run env (Function.update fs "/var/run/vpnht.sock" (some m))).2.clock =
        (run env (Function.update fs "/var/run/vpnht.sock" none)).2.clock ∧
      (run env (Function.update fs "/var/run/vpnht.sock" (some m))).2.signalAt =
        (run env (Function.update fs "/var/run/vpnht.sock" none)).2.signalAt ∧
      (run env (Function.update fs "/var/run/vpnht.sock" (some m))).2.serverTrace =
        (run env (Function.update fs "/var/run/vpnht.sock" none)).2.serverTrace ∧
      (∃ a b, Event.goServer ∉ a ∧
        (run env (Function.update fs "/var/run/vpnht.sock" (some m))).2.mainTrace =
          a ++ Event.unlink "/var/run/vpnht.sock" false :: b ∧
        (run env (Function.update fs "/var/run/vpnht.sock" none)).2.mainTrace =
          a ++ Event.unlink "/var/run/vpnht.sock" true :: b) ∧
      (env.authInit = none → env.checkAndClean = none → env.bindErr = none →
        Event.netListen "unix" "/var/run/vpnht.sock" true ∈
          (run env (Function.update fs "/var/run/vpnht.sock" (some m))).2.serverTrace)) ∧
    (env.startupUnlinkDenied = true → env.authInit = none → env.checkAndClean = none →
      Event.unlink "/var/run/vpnht.sock" true ∈
        (run env (Function.update fs "/var/run/vpnht.sock" (some m))).2.mainTrace ∧
      Event.netListen "unix" "/var/run/vpnht.sock" false ∈
        (run env (Function.update fs "/var/run/vpnht.sock" (some m))).2.serverTrace ∧
      (∃ snap, (run env (Function.update fs "/var/run/vpnht.sock" (some m))).2.signalAt =
          some snap ∧ snap.listeners = [] ∧ snap.fs "/var/run/vpnht.sock" = some m) ∧
      (env.bindErr = none →
        Event.netListen "unix" "/var/run/vpnht.sock" true ∈
          (run env (Function.update fs "/var/run/vpnht.sock" none)).2.serverTrace)) :=
  ⟨fun hu => stale_and_clean_agree env fs m hp hu h0,
    fun hd h1 h2 => stale_socket_kept_when_refused env fs m hp hd h0 h1 h2⟩

theorem driveTail_noUnlink (env : Env) (fs : String → Option Nat) (ls : List Endpoint)
    (hp : ¬ (env.goos = "linux" ∨ env.goos = "darwin")) :
    ∀ e ∈ driveTail env fs ls, e.isUnlink = false := by
  unfold driveTail
  cases env.shutdownPanics <;> cases env.closePanics <;> simp [hp, Event.isUnlink]

/-- C8. On linux and darwin, when the bootstrap passes and no step of the
shutdown closure fails (neither `server.Shutdown` nor `server.Close` panics and
the operating system does not refuse the unlink), the path
`/var/run/vpnht.sock` does not exist when `main` ends, whether or not the
socket was bound and whether or not closing the listener had removed it
already. On every other platform the shutdown sequence contains no unlink. -/
theorem socket_absent_after_shutdown (env : Env) (fs : String → Option Nat) :
    ((env.goos = "linux" ∨ env.goos = "darwin") →
      env.pidInit = none → env.authInit = none → env.checkAndClean = none →
      env.shutdownPanics = none → env.closePanics = none →
      env.shutdownUnlinkDenied = false →
        (run env fs).2.fs "/var/run/vpnht.sock" = none) ∧
    (¬ (env.goos = "linux" ∨ env.goos = "darwin") →
      ∀ e ∈ shutdownTrace env fs, e.isUnlink = false) := by
  refine ⟨?_, ?_⟩
  · intro hp h0 h1 h2 hs hc hd
    rw [run_started env fs h0 h1 h2]
    simp only [startedWorld]
    unfold driveFs
    rw [hs, hc, hd]
    simp only [if_pos hp]
    exact unlinkFs_removes _ _
  · intro hp
    by_cases hb : env.pidInit = none ∧ env.authInit = none ∧ env.checkAndClean = none
    · obtain ⟨h0, h1, h2⟩ := hb
      rw [shutdownTrace_shape env fs h0 h1 h2]
      intro e he
      rcases List.mem_cons.mp he with rfl | he
      · rfl
      rcases List.mem_cons.mp he with rfl | he
      · rfl
      rcases List.mem_append.mp he with h | h
      · exact driveTail_noUnlink env _ _ hp e h
      · exact (afterDrive_kind env.profiles e h).2.1
    · rw [shutdownTrace_failed env fs hb]
      intro e he
      simp at he

/-! ## Failures of the bootstrap -/

theorem bootEvents_quiet (env : Env) (fs : String → Option Nat) :
    ∀ x ∈ bootEvents env fs, x.isAfterBootstrap = false := by
  unfold bootEvents devEvents startEvents
  cases env.dev <;> by_cases hp : env.goos = "linux" ∨ env.goos = "darwin" <;>
    simp [hp, Event.isAfterBootstrap]

/-- C9, as the code has it. A failure of `auth.Init` or of
`autoclean.CheckAndClean` is logged with the error as a field, then `main`
panics with that error; the recovery boundary of `main` logs the panic and
raises it again, and the process crashes with it. A failure of `utils.PidInit`
makes `main` panic with the error at once, with no log entry: the logger is not
initialised yet and the recovery boundary is not installed. In all three cases
nothing that follows the bootstrap happens: no goroutine step, no listener, no
ticker, no wait for the signal, no teardown step. -/
theorem bootstrap_failure_aborts (env : Env) (fs : String → Option Nat) :
    (∀ e, env.pidInit = some e →
      (run env fs).1 = Outcome.crashed e ∧
      [Event.pidInit, Event.panic e] <:+ (run env fs).2.mainTrace ∧
      (∀ x ∈ (run env fs).2.mainTrace, x.isLogError = false) ∧
      (run env fs).2.abortedAtBootstrap) ∧
    (∀ e, env.pidInit = none → env.authInit = some e →
      (run env fs).1 = Outcome.crashed e ∧
      [Event.authInit, Event.logError "main: Failed to init auth" ["error"] e, Event.panic e,
        Event.recover (some e), Event.logError "main: Panic" ["stack", "panic"] e,
        Event.panic e] <:+ (run env fs).2.mainTrace ∧
      (run env fs).2.abortedAtBootstrap) ∧
    (∀ e, env.pidInit = none → env.authInit = none → env.checkAndClean = some e →
      (run env fs).1 = Outcome.crashed e ∧
      [Event.checkAndClean, Event.logError "main: Failed to run check and clean" ["error"] e,
        Event.panic e, Event.recover (some e),
        Event.logError "main: Panic" ["stack", "panic"] e,
        Event.panic e] <:+ (run env fs).2.mainTrace ∧
      (run env fs).2.abortedAtBootstrap) := by
  refine ⟨?_, ?_, ?_⟩
  · intro e h
    rw [run_pidInit env fs e h]
    refine ⟨rfl, ?_, ?_, rfl, rfl, rfl, ?_⟩
    · exact ⟨Event.flagParse :: devEvents env, by simp⟩
    · unfold devEvents
      cases env.dev <;> simp [Event.isLogError]
    · unfold devEvents
      cases env.dev <;> simp [Event.isAfterBootstrap]
  · intro e h0 h
    rw [run_authInit env fs e h0 h]
    refine ⟨rfl, ⟨bootEvents env fs, rfl⟩, rfl, rfl, rfl, ?_⟩
    intro x hx
    rcases List.mem_append.mp hx with hx | hx
    · exact bootEvents_quiet env fs x hx
    · simp at hx
      rcases hx with rfl | rfl | rfl | rfl | rfl | rfl <;> rfl
  · intro e h0 h1 h
    rw [run_checkAndClean env fs e h0 h1 h]
    refine ⟨rfl, ⟨bootEvents env fs ++ [Event.authInit], by simp⟩, rfl, rfl, rfl, ?_⟩
    intro x hx
    rcases List.mem_append.mp hx with hx | hx
    · exact bootEvents_quiet env fs x hx
    · simp at hx
      rcases hx with rfl | rfl | rfl | rfl | rfl | rfl | rfl <;> rfl

/-! ## Time -/

theorem stopsUpToPanic_subset (ps : List Session) : ∀ s ∈ stopsUpToPanic ps, s ∈ ps := by
  induction ps with
  | nil => intro s hs; simp [stopsUpToPanic] at hs
  | cons p rest ih =>
    intro s hs
    unfold stopsUpToPanic at hs
    cases hres : p.result <;> simp [hres] at hs
    · rcases hs with rfl | hs
      · exact List.mem_cons_self _ _
      · exact List.mem_cons_of_mem _ (ih s hs)
    · rcases hs with rfl | hs
      · exact List.mem_cons_self _ _
      · exact List.mem_cons_of_mem _ (ih s hs)
    · subst hs
      exact List.mem_cons_self _ _

theorem sum_took_zero (l : List Session) (h : ∀ s ∈ l, s.took = 0) :
    (l.map Session.took).sum = 0 := by
  induction l with
  | nil => rfl
  | cons p rest ih =>
    simp [h p (List.mem_cons_self _ _), ih (fun s hs => h s (List.mem_cons_of_mem _ hs))]

theorem stopTime_zero (ps : List Session) (h : ∀ s ∈ ps, s.took = 0) : stopTime ps = 0 :=
  sum_took_zero _ (fun s hs => h s (stopsUpToPanic_subset ps s hs))

theorem loopTailTime_le (ps : List Session) : loopTailTime ps ≤ 750 := by
  unfold loopTailTime
  cases firstPanic ps <;> simp

theorem run_failed_signalAt (env : Env) (fs : String → Option Nat)
    (h : ¬ (env.pidInit = none ∧ env.authInit = none ∧ env.checkAndClean = none)) :
    (run env fs).2.signalAt = none := by
  cases h0 : env.pidInit with
  | some e => rw [run_pidInit env fs e h0]
  | none =>
    cases h1 : env.authInit with
    | some e => rw [run_authInit env fs e h0 h1]
    | none =>
      cases h2 : env.checkAndClean with
      | some e => rw [run_checkAndClean env fs e h0 h1 h2]
      | none => exact absurd ⟨h0, h1, h2⟩ h

theorem waitSignal_not_in_driveTail (env : Env) (fs : String → Option Nat)
    (ls : List Endpoint) : Event.waitSignal ∉ driveTail env fs ls := by
  unfold driveTail
  cases env.shutdownPanics <;> cases env.closePanics <;>
    by_cases hp : env.goos = "linux" ∨ env.goos = "darwin" <;> simp [hp]

theorem waitSignal_not_in_afterDrive (ps : List Session) : Event.waitSignal ∉ afterDrive ps := by
  unfold afterDrive loopEvents loopTail exitEvents
  cases firstPanic ps <;> simp

/-- The time from the signal to the end of `main`, whatever the `Stop` calls
take: the wait on `server.Shutdown`, cut at its deadline, the first sleep, the
`Stop` calls that are made, and the second sleep when it runs. -/
theorem shutdown_time (env : Env) (fs : String → Option Nat) (t : Nat)
    (hsig : (run env fs).2.signalClock = some t) :
    (run env fs).2.clock =
      t + min env.shutdownTook 1000 + 250 + stopTime env.profiles + loopTailTime env.profiles := by
  by_cases hb : env.pidInit = none ∧ env.authInit = none ∧ env.checkAndClean = none
  · obtain ⟨h0, h1, h2⟩ := hb
    rw [run_started env fs h0 h1 h2] at hsig ⊢
    simp only [startedWorld, World.signalClock, Option.map_some', Option.some.injEq] at hsig ⊢
    subst hsig
    rfl
  · rw [World.signalClock, run_failed_signalAt env fs hb] at hsig
    exact Option.noConfusion hsig

theorem stopTime_le_sum (ps : List Session) : stopTime ps ≤ (ps.map Session.took).sum := by
  unfold stopTime
  induction ps with
  | nil => simp [stopsUpToPanic]
  | cons p rest ih =>
    unfold stopsUpToPanic
    cases hres : p.result <;> simp [hres] <;> omega

theorem stopTime_eq_sum (ps : List Session) (h : ∀ s ∈ ps, s.stopPanics = false) :
    stopTime ps = (ps.map Session.took).sum := by
  unfold stopTime
  rw [(stopsUpToPanic_all ps h).1]

/-- C10, as the code has it. Counting the durations of the steps (the wait on
`server.Shutdown` ends at the 1000 ms deadline at the latest, a sleep lasts its
argument, a `Stop` lasts what the session takes, every other step of `main` is
instantaneous): from the receipt of the signal at time `t` to the end of
`main`, on every platform and for every list of sessions, the shutdown sequence
waits for no signal again and lasts at most 1000 + 250 + 750 ms plus the time
spent in the `Stop` calls, which are synchronous and have no deadline; when no
`Stop` panics `main` returns, after at least 250 + 750 ms plus the time of all
the `Stop` calls. Only when the `Stop` calls take no time is the total at most
2000 ms. -/
theorem shutdown_time_is_bounded (env : Env) (fs : String → Option Nat) (t : Nat)
    (hsig : (run env fs).2.signalClock = some t) :
    (run env fs).2.clock ≤ t + (1000 + 250 + 750) + (env.profiles.map Session.took).sum ∧
    ((∀ s ∈ env.profiles, s.took = 0) →
      (run env fs).2.clock - t ≤ 1000 + 250 + 750 ∧ (run env fs).2.clock ≤ t + 2000) ∧
    Event.waitSignal ∉ shutdownTrace env fs ∧
    ((∀ s ∈ env.profiles, s.stopPanics = false) →
      (run env fs).1 = Outcome.exited ∧
      t + 250 + 750 + (env.profiles.map Session.took).sum ≤ (run env fs).2.clock) := by
  have ht := shutdown_time env fs t hsig
  have hle := stopTime_le_sum env.profiles
  have hl := loopTailTime_le env.profiles
  have hm : min env.shutdownTook 1000 ≤ 1000 := Nat.min_le_right _ _
  have hb : env.pidInit = none ∧ env.authInit = none ∧ env.checkAndClean = none := by
    by_contra hb
    rw [World.signalClock, run_failed_signalAt env fs hb] at hsig
    exact Option.noConfusion hsig
  obtain ⟨h0, h1, h2⟩ := hb
  refine ⟨by omega, ?_, ?_, ?_⟩
  · intro hstop
    have hz := stopTime_zero env.profiles hstop
    exact ⟨by omega, by omega⟩
  · rw [shutdownTrace_shape env fs h0 h1 h2]
    intro hmem
    rcases List.mem_cons.mp hmem with h | hmem
    · exact Event.noConfusion h
    rcases List.mem_cons.mp hmem with h | hmem
    · exact Event.noConfusion h
    rcases List.mem_append.mp hmem with h | h
    · exact waitSignal_not_in_driveTail _ _ _ h
    · exact waitSignal_not_in_afterDrive _ h
  · intro hall
    have hf := (stopsUpToPanic_all env.profiles hall).2
    have hl2 : loopTailTime env.profiles = 750 := by simp [loopTailTime, hf]
    have he := stopTime_eq_sum env.profiles hall
    refine ⟨?_, by omega⟩
    rw [run_started env fs h0 h1 h2]
    simp [exitOutcome, hf]

/-! ## The theorems at concrete inputs -/

theorem shutdown_order_witness :
    (envStopPanics.pidInit = none ∧ envStopPanics.authInit = none ∧
      envStopPanics.checkAndClean = none) ∧
    (shutdownTrace envStopPanics fsStale)[1]? = some Event.serverShutdown ∧
    Precedes Event.isServerDown Event.isUnlink (shutdownTrace envStopPanics fsStale) ∧
    Precedes Event.isUnlink Event.isStop (shutdownTrace envStopPanics fsStale) :=
  ⟨⟨rfl, rfl, rfl⟩, (shutdown_order envStopPanics fsStale).2.2.2.2 rfl rfl rfl,
    (shutdown_order envStopPanics fsStale).2.1, (shutdown_order envStopPanics fsStale).2.2.1⟩

theorem stop_loop_ends_at_first_panic_witness :
    (envStopPanics.pidInit = none ∧ envStopPanics.authInit = none ∧
      envStopPanics.checkAndClean = none ∧
      envStopPanics.profiles = [sessionA] ++ sessionB :: [sessionC] ∧
      (∀ p ∈ [sessionA], p.stopPanics = false) ∧
      sessionB.result = StopResult.panics (Error.raw "stop failed")) ∧
    stopsOf (run envStopPanics fsEmpty).2.mainTrace = [sessionA] ++ [sessionB] ∧
    (run envStopPanics fsEmpty).1 = Outcome.crashed (Error.raw "stop failed") ∧
    Event.sleep 750 ∉ shutdownTrace envStopPanics fsEmpty ∧
    [Event.stop sessionB, Event.panic (Error.raw "stop failed"), Event.webCancel,
      Event.recover (some (Error.raw "stop failed")),
      Event.logError "main: Panic" ["stack", "panic"] (Error.raw "stop failed"),
      Event.panic (Error.raw "stop failed")] <:+ (run envStopPanics fsEmpty).2.mainTrace :=
  ⟨⟨rfl, rfl, rfl, rfl, by decide, rfl⟩,
    (stop_loop_ends_at_first_panic envStopPanics fsEmpty rfl rfl rfl).2
      [sessionA] [sessionC] sessionB (Error.raw "stop failed") rfl (by decide) rfl⟩

theorem bind_failure_is_recovered_witness :
    bindFailed (run envUnlinkDenied fsStale).2.serverTrace ∧
    (run envUnlinkDenied fsStale).2.goroutineCrash = none ∧
    Event.goPingServersTicker ∈ (run envUnlinkDenied fsStale).2.mainTrace :=
  ⟨by decide, (bind_failure_is_recovered envUnlinkDenied fsStale (by decide)).1,
    (bind_failure_is_recovered envUnlinkDenied fsStale (by decide)).2.1⟩

theorem goroutine_panic_is_discarded_witness :
    Event.panic (Error.raw "http: Server closed") ∈
      (run (envClean "windows" [sessionA]) fsEmpty).2.serverTrace ∧
    (run (envClean "windows" [sessionA]) fsEmpty).2.serverTrace.getLast? =
      some (Event.recover (some (Error.raw "http: Server closed"))) ∧
    (run (envClean "windows" [sessionA]) fsEmpty).2.goroutineCrash = none :=
  ⟨by decide,
    (goroutine_panic_is_discarded (envClean "windows" [sessionA]) fsEmpty
      (Error.raw "http: Server closed") (by decide)).1,
    (goroutine_panic_is_discarded (envClean "windows" [sessionA]) fsEmpty
      (Error.raw "http: Server closed") (by decide)).2.1⟩

theorem shutdown_closure_is_best_effort_witness :
    (envClosePanics.pidInit = none ∧ envClosePanics.authInit = none ∧
      envClosePanics.checkAndClean = none) ∧
    (Event.serverClose ∈ shutdownTrace envClosePanics fsEmpty ↔
      envClosePanics.shutdownPanics = none) ∧
    ((∃ b, Event.unlink "/var/run/vpnht.sock" b ∈ shutdownTrace envClosePanics fsEmpty) ↔
      ((envClosePanics.goos = "linux" ∨ envClosePanics.goos = "darwin") ∧
        envClosePanics.shutdownPanics = none ∧ envClosePanics.closePanics = none)) :=
  ⟨⟨rfl, rfl, rfl⟩, (shutdown_closure_is_best_effort envClosePanics fsEmpty rfl rfl rfl).2⟩

theorem startup_binds_one_endpoint_witness :
    ((envClean "linux" [sessionA]).pidInit = none ∧
      (envClean "linux" [sessionA]).authInit = none ∧
      (envClean "linux" [sessionA]).checkAndClean = none ∧
      (envClean "linux" [sessionA]).bindErr = none ∧
      (envClean "linux" [sessionA]).chmodErr = none ∧
      (envClean "linux" [sessionA]).startupUnlinkDenied = false) ∧
    ∃ snap, (run (envClean "linux" [sessionA]) fsStale).2.signalAt = some snap ∧
      (((envClean "linux" [sessionA]).goos = "linux" ∨
          (envClean "linux" [sessionA]).goos = "darwin") →
        snap.listeners = [Endpoint.unix "/var/run/vpnht.sock"] ∧
        snap.fs "/var/run/vpnht.sock" = some 0o777 ∧
        endpointsCreated (run (envClean "linux" [sessionA]) fsStale).2.serverTrace =
          [Endpoint.unix "/var/run/vpnht.sock"]) ∧
      (¬ ((envClean "linux" [sessionA]).goos = "linux" ∨
          (envClean "linux" [sessionA]).goos = "darwin") →
        snap.listeners = [Endpoint.tcp "127.0.0.1:9770"] ∧
        endpointsCreated (run (envClean "linux" [sessionA]) fsStale).2.serverTrace =
          [Endpoint.tcp "127.0.0.1:9770"]) :=
  ⟨⟨rfl, rfl, rfl, rfl, rfl, rfl⟩,
    startup_binds_one_endpoint (envClean "linux" [sessionA]) fsStale rfl rfl rfl rfl rfl rfl⟩

theorem stale_socket_is_removed_before_bind_witness :
    (((envClean "darwin" [sessionA]).goos = "linux" ∨
        (envClean "darwin" [sessionA]).goos = "darwin") ∧
      (envClean "darwin" [sessionA]).startupUnlinkDenied = false ∧
      (envClean "darwin" [sessionA]).pidInit = none) ∧
    ((run (envClean "darwin" [sessionA])
        (Function.update fsEmpty "/var/run/vpnht.sock" (some 0o755))).1 =
      (run (envClean "darwin" [sessionA])
        (Function.update fsEmpty "/var/run/vpnht.sock" none)).1 ∧
    Event.netListen "unix" "/var/run/vpnht.sock" true ∈
      (run (envClean "darwin" [sessionA])
        (Function.update fsEmpty "/var/run/vpnht.sock" (some 0o755))).2.serverTrace) ∧
    (envUnlinkDenied.startupUnlinkDenied = true ∧
      Event.netListen "unix" "/var/run/vpnht.sock" false ∈
        (run envUnlinkDenied
          (Function.update fsEmpty "/var/run/vpnht.sock" (some 0o755))).2.serverTrace) :=
  ⟨⟨Or.inr rfl, rfl, rfl⟩,
    ⟨((stale_socket_is_removed_before_bind (envClean "darwin" [sessionA]) fsEmpty 0o755
        (Or.inr rfl) rfl).1 rfl).1,
      ((stale_socket_is_removed_before_bind (envClean "darwin" [sessionA]) fsEmpty 0o755
        (Or.inr rfl) rfl).1 rfl).2.2.2.2.2.2.2 rfl rfl rfl⟩,
    ⟨rfl,
      ((stale_socket_is_removed_before_bind envUnlinkDenied fsEmpty 0o755
        (Or.inl rfl) rfl).2 rfl rfl rfl).2.1⟩⟩

theorem socket_absent_after_shutdown_witness :
    (((envClean "linux" [sessionA]).goos = "linux" ∨
        (envClean "linux" [sessionA]).goos = "darwin") ∧
      (envClean "linux" [sessionA]).shutdownPanics = none ∧
      (envClean "linux" [sessionA]).closePanics = none ∧
      (envClean "linux" [sessionA]).shutdownUnlinkDenied = false) ∧
    (run (envClean "linux" [sessionA]) fsStale).2.fs "/var/run/vpnht.sock" = none ∧
    (∀ e ∈ shutdownTrace (envClean "windows" [sessionA]) fsStale, e.isUnlink = false) :=
  ⟨⟨Or.inl rfl, rfl, rfl, rfl⟩,
    (socket_absent_after_shutdown (envClean "linux" [sessionA]) fsStale).1
      (Or.inl rfl) rfl rfl rfl rfl rfl rfl,
    (socket_absent_after_shutdown (envClean "windows" [sessionA]) fsStale).2 (by decide)⟩

theorem bootstrap_failure_aborts_witness :
    (envAuthFails.pidInit = none ∧ envAuthFails.authInit = some (Error.raw "no key")) ∧
    (run envAuthFails fsEmpty).1 = Outcome.crashed (Error.raw "no key") ∧
    [Event.authInit, Event.logError "main: Failed to init auth" ["error"] (Error.raw "no key"),
      Event.panic (Error.raw "no key"), Event.recover (some (Error.raw "no key")),
      Event.logError "main: Panic" ["stack", "panic"] (Error.raw "no key"),
      Event.panic (Error.raw "no key")] <:+ (run envAuthFails fsEmpty).2.mainTrace ∧
    (run envAuthFails fsEmpty).2.abortedAtBootstrap :=
  ⟨⟨rfl, rfl⟩, (bootstrap_failure_aborts envAuthFails fsEmpty).2.1 (Error.raw "no key") rfl rfl⟩

theorem shutdown_time_is_bounded_witness :
    ((run envBusy fsEmpty).2.signalClock = some 5000 ∧
      (∀ s ∈ envBusy.profiles, s.took = 0) ∧
      (∀ s ∈ envBusy.profiles, s.stopPanics = false)) ∧
    (run envBusy fsEmpty).2.clock ≤
      5000 + (1000 + 250 + 750) + (envBusy.profiles.map Session.took).sum ∧
    ((run envBusy fsEmpty).2.clock - 5000 ≤ 1000 + 250 + 750 ∧
      (run envBusy fsEmpty).2.clock ≤ 5000 + 2000) ∧
    Event.waitSignal ∉ shutdownTrace envBusy fsEmpty ∧
    ((run envBusy fsEmpty).1 = Outcome.exited ∧
      5000 + 250 + 750 + (envBusy.profiles.map Session.took).sum ≤
        (run envBusy fsEmpty).2.clock) :=
  ⟨⟨by decide, by decide, by decide⟩,
    (shutdown_time_is_bounded envBusy fsEmpty 5000 (by decide)).1,
    (shutdown_time_is_bounded envBusy fsEmpty 5000 (by decide)).2.1 (by decide),
    (shutdown_time_is_bounded envBusy fsEmpty 5000 (by decide)).2.2.1,
    (shutdown_time_is_bounded envBusy fsEmpty 5000 (by decide)).2.2.2 (by decide)⟩

/-! ## Where the code departs from the specification -/

/-- C2 fails as stated. On linux with sessions A, B, C where the `Stop` of B
panics, session C is in the list returned by `GetProfiles` and never receives a
`Stop`. -/
theorem stop_panic_skips_later_sessions :
    sessionC ∈ envStopPanics.profiles ∧
    (stopsOf (run envStopPanics fsEmpty).2.mainTrace).count sessionC = 0 ∧
    stopsOf (run envStopPanics fsEmpty).2.mainTrace = [sessionA, sessionB] := by
  decide

/-- C3 fails as stated. With the port occupied the bind fails, yet the ticker
is started, no goroutine crash is recorded, `main` waits for the signal and the
process exits normally after it. -/
theorem bind_failure_ticker_still_started :
    bindFailed (run envPortOccupied fsEmpty).2.serverTrace ∧
    Event.goPingServersTicker ∈ (run envPortOccupied fsEmpty).2.mainTrace ∧
    Event.waitSignal ∈ (run envPortOccupied fsEmpty).2.mainTrace ∧
    (run envPortOccupied fsEmpty).2.goroutineCrash = none ∧
    (run envPortOccupied fsEmpty).1 = Outcome.exited := by
  decide

/-- C4 fails as stated. When the chmod of the socket fails the goroutine
panics, the panic is not raised again: no goroutine crash is recorded, `main`
blocks on the signal and the process exits normally after it. -/
theorem goroutine_panic_is_swallowed :
    Event.panic (Error.writeError "main: Failed to chmod unix socket"
      (Error.raw "operation not permitted")) ∈ (run envChmodFails fsStale).2.serverTrace ∧
    (run envChmodFails fsStale).2.goroutineCrash = none ∧
    Event.waitSignal ∈ (run envChmodFails fsStale).2.mainTrace ∧
    (run envChmodFails fsStale).1 = Outcome.exited := by
  decide

/-- C5 fails as stated. On linux, when `server.Shutdown` panics, the shutdown
sequence attempts no unlink and does not call `server.Close`, and the socket
file is still there when `main` returns. -/
theorem shutdown_panic_skips_unlink :
    envShutdownPanics.goos = "linux" ∧
    (∀ e ∈ shutdownTrace envShutdownPanics fsEmpty, e.isUnlink = false) ∧
    Event.serverClose ∉ shutdownTrace envShutdownPanics fsEmpty ∧
    (run envShutdownPanics fsEmpty).2.fs "/var/run/vpnht.sock" = some 0o777 ∧
    (run envShutdownPanics fsEmpty).1 = Outcome.exited := by
  decide

/-- C7 fails as stated. On linux, when the operating system refuses the unlink
at startup, the stale artifact is not removed: the startup over it fails to bind
because the path exists and no endpoint listens at the signal, while the
startup without the artifact binds the socket; the two do not reach the same
state. And when `utils.PidInit` fails the unlink is never attempted, so the
stale artifact is still there at the end. -/
theorem refused_unlink_keeps_stale_socket :
    envUnlinkDenied.goos = "linux" ∧
    Event.netListen "unix" "/var/run/vpnht.sock" false ∈
      (run envUnlinkDenied fsStale).2.serverTrace ∧
    (run envUnlinkDenied fsStale).2.signalAt.map Snapshot.listeners = some [] ∧
    Event.netListen "unix" "/var/run/vpnht.sock" true ∈
      (run envUnlinkDenied fsEmpty).2.serverTrace ∧
    (run envUnlinkDenied fsEmpty).2.signalAt.map Snapshot.listeners =
      some [Endpoint.unix "/var/run/vpnht.sock"] ∧
    (∀ e ∈ (run envPidHeld fsStale).2.mainTrace, e.isUnlink = false) ∧
    (run envPidHeld fsStale).2.fs "/var/run/vpnht.sock" = some 0o755 := by
  decide

/-- C10 fails as stated. On linux with an idle server and one session whose
`Stop` takes 5000 ms, the signal arrives at 5000 ms and `main` returns at
11000 ms: 6000 ms after the signal, more than 1000 + 250 + 750 ms. -/
theorem slow_stop_exceeds_bound :
    envSlowStop.shutdownTook = 0 ∧
    (run envSlowStop fsEmpty).2.signalClock = some 5000 ∧
    (run envSlowStop fsEmpty).1 = Outcome.exited ∧
    (run envSlowStop fsEmpty).2.clock - 5000 = 6000 ∧
    ¬ ((run envSlowStop fsEmpty).2.clock - 5000 ≤ 1000 + 250 + 750) := by
  decide

/-- C9 fails as stated. When `utils.PidInit` fails, `main` panics with the
error without writing any log entry. -/
theorem pidInit_failure_is_not_logged :
    envPidHeld.pidInit = some (Error.raw "pid file held") ∧
    (run envPidHeld fsEmpty).2.mainTrace =
      [Event.flagParse, Event.pidInit, Event.panic (Error.raw "pid file held")] ∧
    (∀ x ∈ (run envPidHeld fsEmpty).2.mainTrace, x.isLogError = false) ∧
    (run envPidHeld fsEmpty).1 = Outcome.crashed (Error.raw "pid file held") := by
  decide

end Service
